import Mathlib

/-!
# gate-locker: debounce, acknowledgement pulse and relay pulse

A shallow embedding of the Go sources under `pi/`:

* `gpio.go`            : `GPIOManager` (the hardware backend)
* `gpio_mock.go`       : `MockGPIOManager` (the simulated backend)
* `gpio_interface.go`  : `GPIOInterface`
* `doorbell_client.go` : `DoorbellClient.TriggerDoorbell`
* `gate_controller.go` : `GateController.UnlockGate`, `GateController.CheckESPSignal`
* `config.go`          : `Config` and its defaults
* `api.go`             : `APIServer.handleButtonPress`, `APIServer.handleUnlock`
* `main.go`            : the 100 ms poll loop

Conventions of the embedding.

* `time.Duration` is a count of nanoseconds in an `int64`; it is an `Int` here and
  arithmetic that can leave the 64-bit range is wrapped explicitly (`wrapInt64`).
* `time.Time` is an instant, an `Int` count of nanoseconds since Go's zero time
  (January 1, year 1, 00:00:00 UTC).  Every call of `time.Now()` in the source
  becomes an argument `now`.
* The level the peripheral drives on the input pin is an argument of the read.
* A method with a pointer receiver returns the receiver's new value.
* The package state of the `rpio` library, whether the GPIO registers are mapped
  into memory, is a value of `Rpio`.  `rpio.Open()` maps them, `rpio.Close()`
  unmaps them, and a pin access while they are unmapped is a fault.  `Close`, the
  one method that changes this state, takes it and returns it; every other
  method of `GPIOManager` is embedded for mapped registers, the state between
  `NewGPIOManager` and `Close` in which the program calls it.
* The effects the properties below speak about (sleeps, calls through `GPIOInterface`,
  writes to the relay line, the doorbell request) are recorded in a list of
  `Event`s, oldest first.  `log` output is not modelled.
-/

namespace GateLocker

/-! ## `time` -/

/-- Nanoseconds, the unit of `time.Duration`. -/
abbrev Duration := Int

/-- Nanoseconds since Go's zero `time.Time`. -/
abbrev Time := Int

/-- The constant `time.Millisecond`. -/
def Millisecond : Duration := 1000000

/-- The constant `time.Second`. -/
def Second : Duration := 1000000000

/-- Smallest `int64`, Go's `minDuration`. -/
def minDuration : Duration := -9223372036854775808

/-- Largest `int64`, Go's `maxDuration`. -/
def maxDuration : Duration := 9223372036854775807

/-- Two's-complement wrap-around of an integer into the `int64` range, the
result of Go's `int64` arithmetic. -/
def wrapInt64 (x : Int) : Int := (x + 9223372036854775808) % 18446744073709551616 - 9223372036854775808

/-- The zero value of `time.Time`, the value of a field that was never assigned. -/
def zeroTime : Time := 0

/-- The Unix epoch (January 1, 1970 UTC), in nanoseconds since the zero time. -/
def unixEpoch : Time := 62135596800 * Second

/-- Go's `Time.Sub`: the duration `t - u`, saturated at `minDuration` and
`maxDuration` when the difference does not fit a `Duration`. -/
def Time.Sub (t u : Time) : Duration :=
  if t - u < minDuration then minDuration
  else if maxDuration < t - u then maxDuration
  else t - u

/-! ## Lines and events -/

/-- The level of a digital line (`rpio.Low`, `rpio.High`). -/
inductive Level where
  | Low
  | High
  deriving DecidableEq, Repr

/-- What the program does to the outside world, as far as the properties below
need it. -/
inductive Event where
  /-- `gpio.IsESPSignalActive()` was called and returned `result`. -/
  | isESPSignalActive (result : Bool)
  /-- `gc.doorbell.TriggerDoorbell()` was called. -/
  | triggerDoorbell
  /-- `d.client.Post` was issued to the doorbell host. -/
  | httpPost (host : String)
  /-- `time.Sleep d`. -/
  | sleep (d : Duration)
  /-- `gpio.SetESPResponse(active)` was called. -/
  | setESPResponse (active : Bool)
  /-- The unlock relay line was driven to a level. -/
  | relayWrite (l : Level)
  deriving DecidableEq, Repr

/-! ## Failures, and the `rpio` library -/

/-- A failure that ends a call without a result: a Go run-time panic or a fatal
fault. -/
inductive Panic where
  /-- `close` of a channel that is already closed. -/
  | closeOfClosedChannel
  /-- SIGSEGV: an access to the GPIO registers when `rpio` has unmapped them. -/
  | segmentationViolation
  deriving DecidableEq, Repr

/-- The package state of `rpio`: the GPIO registers are `mapped` into memory
between a successful `rpio.Open()` and `rpio.Close()`, and `unmapped` before and
after. -/
inductive Rpio where
  | mapped
  | unmapped
  deriving DecidableEq, Repr

/-! ## `gpio.go` -/

/-- The struct `GPIOManager` together with the levels of the two output pins
it drives.  `espResponsePin` and `unlockRelayPin` hold the level last written
to the pin; the input pin has no field, its level is supplied at each read. -/
structure GPIOManager where
  espResponsePin : Level
  unlockRelayPin : Level
  espSignalPinNum : Int
  espResponsePinNum : Int
  unlockRelayPinNum : Int
  lastSignalTime : Time
  debounceTime : Duration
  deriving DecidableEq, Repr

/-- `NewGPIOManager`.  `openErr` is the result of `rpio.Open()`: `some e` makes
the constructor fail with `e`.  `lastSignalTime` is not assigned and keeps the
zero time; both outputs are driven `Low`.  After a successful call `rpio` is
`Rpio.mapped`. -/
def NewGPIOManager (openErr : Option String)
    (espSignalPinNum espResponsePinNum unlockRelayPinNum : Int) : Except String GPIOManager :=
  match openErr with
  | some err => .error err
  | none =>
    .ok { espResponsePin := Level.Low
          unlockRelayPin := Level.Low
          espSignalPinNum := espSignalPinNum
          espResponsePinNum := espResponsePinNum
          unlockRelayPinNum := unlockRelayPinNum
          lastSignalTime := zeroTime
          debounceTime := 250 * Millisecond }

/-- `GPIOManager.Close`, with `lib` the state of `rpio` at the call.  The first
statement, `gm.espResponsePin.Low()`, writes a GPIO register: with the registers
unmapped it faults and nothing else runs.  With them mapped both outputs are
driven `Low` and `rpio.Close()` unmaps the registers (its result is discarded). -/
def GPIOManager.Close (gm : GPIOManager) (lib : Rpio) : Except Panic (GPIOManager × Rpio) :=
  match lib with
  | Rpio.unmapped => .error Panic.segmentationViolation
  | Rpio.mapped =>
    .ok ({ gm with espResponsePin := Level.Low, unlockRelayPin := Level.Low }, Rpio.unmapped)

/-- `GPIOManager.IsESPSignalActive`, with `now` the value of `time.Now()` and
`pin` the value of `gm.espSignalPin.Read()`. -/
def GPIOManager.IsESPSignalActive (gm : GPIOManager) (now : Time) (pin : Level) :
    Bool × GPIOManager :=
  if Time.Sub now gm.lastSignalTime < gm.debounceTime then
    (false, gm)
  else if pin = Level.High then
    (true, { gm with lastSignalTime := now })
  else
    (false, gm)

/-- `GPIOManager.SetESPResponse`. -/
def GPIOManager.SetESPResponse (gm : GPIOManager) (active : Bool) : GPIOManager :=
  if active then
    { gm with espResponsePin := Level.High }
  else
    { gm with espResponsePin := Level.Low }

/-- `GPIOManager.TriggerUnlockRelay`: relay `High`, sleep 500 ms, relay `Low`. -/
def GPIOManager.TriggerUnlockRelay (gm : GPIOManager) : GPIOManager × List Event :=
  let gm1 := { gm with unlockRelayPin := Level.High }
  let gm2 := { gm1 with unlockRelayPin := Level.Low }
  (gm2, [Event.relayWrite Level.High, Event.sleep (500 * Millisecond),
         Event.relayWrite Level.Low])

/-! ## Go channels -/

/-- A buffered Go channel of `bool`, seen from its receiver.  `pending` holds,
oldest first, every value that was sent and not yet received: the first `cap`
of them sit in the channel's buffer, the others are held by senders blocked in
`c <- v` until the buffer has room. -/
structure Chan where
  cap : Nat
  pending : List Bool
  deriving DecidableEq, Repr

/-- `make(chan bool, cap)`. -/
def Chan.make (cap : Nat) : Chan := { cap := cap, pending := [] }

/-- The values in the channel's buffer. -/
def Chan.buffered (c : Chan) : List Bool := c.pending.take c.cap

/-- The values of the senders blocked on the full buffer. -/
def Chan.blocked (c : Chan) : List Bool := c.pending.drop c.cap

/-- The statement `c <- v`: the value joins the queue (in the buffer when it
has room, with its blocked sender otherwise). -/
def Chan.send (c : Chan) (v : Bool) : Chan := { c with pending := c.pending ++ [v] }

/-- The receive of `select { case <-c: ... default: ... }`: the oldest value
when there is one (a blocked sender's value then moves into the buffer),
`none` for the `default` branch. -/
def Chan.tryRecv (c : Chan) : Option Bool × Chan :=
  match c.pending with
  | [] => (none, c)
  | v :: rest => (some v, { c with pending := rest })

/-! ## `gpio_mock.go` -/

/-- The struct `MockGPIOManager`.  `shutdownClosed` tells whether the channel
`shutdown` has been closed; the mutex (held around single field accesses only)
and the stdin scanner have no field. -/
structure MockGPIOManager where
  espSignalPinNum : Int
  espResponsePinNum : Int
  unlockRelayPinNum : Int
  espSignalState : Bool
  espResponseState : Bool
  unlockRelayState : Bool
  lastSignalTime : Time
  debounceTime : Duration
  signalChan : Chan
  shutdownClosed : Bool
  deriving DecidableEq, Repr

/-- `NewMockGPIOManager`; it never fails. -/
def NewMockGPIOManager (espSignalPinNum espResponsePinNum unlockRelayPinNum : Int) :
    Except String MockGPIOManager :=
  .ok { espSignalPinNum := espSignalPinNum
        espResponsePinNum := espResponsePinNum
        unlockRelayPinNum := unlockRelayPinNum
        espSignalState := false
        espResponseState := false
        unlockRelayState := false
        lastSignalTime := zeroTime
        debounceTime := 250 * Millisecond
        signalChan := Chan.make 10
        shutdownClosed := false }

/-- The statement `mgm.signalChan <- true`. -/
def MockGPIOManager.sendSignal (mgm : MockGPIOManager) : MockGPIOManager :=
  { mgm with signalChan := mgm.signalChan.send true }

/-- One pass of the loop of `MockGPIOManager.readStdin` over a scanned line;
`input` is the line after `strings.ToLower` and `strings.TrimSpace`.  `none` is
`os.Exit(0)`. -/
def MockGPIOManager.readStdin (mgm : MockGPIOManager) (input : String) :
    Option MockGPIOManager :=
  if input = "signal" ∨ input = "s" then
    some mgm.sendSignal
  else if input = "quit" ∨ input = "q" ∨ input = "exit" then
    none
  else
    some mgm

/-- `MockGPIOManager.SetESPResponse`. -/
def MockGPIOManager.SetESPResponse (mgm : MockGPIOManager) (active : Bool) : MockGPIOManager :=
  if mgm.espResponseState != active then
    { mgm with espResponseState := active }
  else
    mgm

/-- `MockGPIOManager.Close`: `close(mgm.shutdown)` panics when the channel is
already closed; otherwise the response line is cleared. -/
def MockGPIOManager.Close (mgm : MockGPIOManager) : Except Panic MockGPIOManager :=
  if mgm.shutdownClosed then
    .error Panic.closeOfClosedChannel
  else
    .ok (MockGPIOManager.SetESPResponse { mgm with shutdownClosed := true } false)

/-- `MockGPIOManager.IsESPSignalActive`, with `now` the value of `time.Now()`. -/
def MockGPIOManager.IsESPSignalActive (mgm : MockGPIOManager) (now : Time) :
    Bool × MockGPIOManager :=
  if Time.Sub now mgm.lastSignalTime < mgm.debounceTime then
    (false, mgm)
  else
    match mgm.signalChan.tryRecv with
    | (some _, ch) =>
      (true, { mgm with signalChan := ch, lastSignalTime := now, espSignalState := true })
    | (none, _) => (false, mgm)

/-- `MockGPIOManager.TriggerUnlockRelay`. -/
def MockGPIOManager.TriggerUnlockRelay (mgm : MockGPIOManager) :
    MockGPIOManager × List Event :=
  let mgm1 := { mgm with unlockRelayState := true }
  let mgm2 := { mgm1 with unlockRelayState := false }
  (mgm2, [Event.relayWrite Level.High, Event.sleep (500 * Millisecond),
          Event.relayWrite Level.Low])

/-! ## `gpio_interface.go`, `gpio_factory.go` -/

/-- A value of the interface type `GPIOInterface`: one of its two
implementations. -/
inductive GPIOInterface where
  | real (gm : GPIOManager)
  | mock (mgm : MockGPIOManager)
  deriving DecidableEq, Repr

/-- `NewGPIO`: the hardware backend on linux/arm64, the mock elsewhere. -/
def NewGPIO (goos goarch : String) (openErr : Option String)
    (espSignalPinNum espResponsePinNum doorUnlockPinNum : Int) : Except String GPIOInterface :=
  if goos = "linux" ∧ goarch = "arm64" then
    (NewGPIOManager openErr espSignalPinNum espResponsePinNum doorUnlockPinNum).map
      GPIOInterface.real
  else
    (NewMockGPIOManager espSignalPinNum espResponsePinNum doorUnlockPinNum).map
      GPIOInterface.mock

/-- The method `Close` through the interface, with `lib` the state of `rpio` at
the call; the mock does not use `rpio`. -/
def GPIOInterface.Close (g : GPIOInterface) (lib : Rpio) : Except Panic (GPIOInterface × Rpio) :=
  match g with
  | .real gm => (gm.Close lib).map fun r => (GPIOInterface.real r.1, r.2)
  | .mock mgm => mgm.Close.map fun closed => (GPIOInterface.mock closed, lib)

/-- The method `IsESPSignalActive` through the interface; the mock does not
read a pin. -/
def GPIOInterface.IsESPSignalActive (g : GPIOInterface) (now : Time) (pin : Level) :
    Bool × GPIOInterface :=
  match g with
  | .real gm => ((gm.IsESPSignalActive now pin).1, .real (gm.IsESPSignalActive now pin).2)
  | .mock mgm => ((mgm.IsESPSignalActive now).1, .mock (mgm.IsESPSignalActive now).2)

/-- The method `SetESPResponse` through the interface. -/
def GPIOInterface.SetESPResponse : GPIOInterface → Bool → GPIOInterface
  | .real gm, active => .real (gm.SetESPResponse active)
  | .mock mgm, active => .mock (mgm.SetESPResponse active)

/-- The method `TriggerUnlockRelay` through the interface. -/
def GPIOInterface.TriggerUnlockRelay : GPIOInterface → GPIOInterface × List Event
  | .real gm => (.real gm.TriggerUnlockRelay.1, gm.TriggerUnlockRelay.2)
  | .mock mgm => (.mock mgm.TriggerUnlockRelay.1, mgm.TriggerUnlockRelay.2)

/-- The level of the response (acknowledgement) line. -/
def GPIOInterface.responseLine : GPIOInterface → Level
  | .real gm => gm.espResponsePin
  | .mock mgm => if mgm.espResponseState then Level.High else Level.Low

/-- The level of the unlock-relay line. -/
def GPIOInterface.relayLine : GPIOInterface → Level
  | .real gm => gm.unlockRelayPin
  | .mock mgm => if mgm.unlockRelayState then Level.High else Level.Low

/-- The field `lastSignalTime` of either backend. -/
def GPIOInterface.lastSignalTime : GPIOInterface → Time
  | .real gm => gm.lastSignalTime
  | .mock mgm => mgm.lastSignalTime

/-! ## `config.go` -/

/-- The struct `GPIOConfig`. -/
structure GPIOConfig where
  ESPSignalPin : Int
  ESPResponsePin : Int
  UnlockRelayPin : Int
  deriving DecidableEq, Repr

/-- The struct `APIConfig`. -/
structure APIConfig where
  Port : String
  deriving DecidableEq, Repr

/-- The struct `DoorbellConfig`. -/
structure DoorbellConfig where
  Enabled : Bool
  Host : String
  deriving DecidableEq, Repr

/-- The struct `Config`. -/
structure Config where
  GPIOConfig : GPIOConfig
  APIConfig : APIConfig
  DoorbellConfig : DoorbellConfig
  deriving DecidableEq, Repr

/-- The defaults `loadConfig` starts from (and returns when there is no file). -/
def defaultConfig : Config :=
  { GPIOConfig := { ESPSignalPin := 26, ESPResponsePin := 15, UnlockRelayPin := 25 }
    APIConfig := { Port := ":8080" }
    DoorbellConfig := { Enabled := false, Host := "lightning-control.local:8080" } }

/-! ## `doorbell_client.go` -/

/-- The struct `DoorbellResponse`, the decoded body of the doorbell's answer.
`VoiceLengthMs` is a Go `int`: a well-formed value lies in the `int64` range. -/
structure DoorbellResponse where
  Status : String
  VoiceLengthMs : Int
  deriving DecidableEq, Repr

/-- What the HTTP exchange of `TriggerDoorbell` comes to: `d.client.Post`
fails (the 5 s timeout included), or it yields a status code and a body that
`json.Decode` either rejects (`none`) or decodes. -/
inductive HttpResult where
  | transportError (err : String)
  | response (statusCode : Int) (body : Option DoorbellResponse)
  deriving DecidableEq, Repr

/-- The three errors `TriggerDoorbell` returns. -/
inductive DoorbellError where
  | postFailed (err : String)
  | badStatus (statusCode : Int)
  | decodeFailed
  deriving DecidableEq, Repr

/-- `DoorbellClient.TriggerDoorbell`.  `config` is `d.config`, which points to
the controller's `config.DoorbellConfig`; `http` is the outcome of the request
if one is made.  The result is the returned duration, the returned error and
the events. -/
def DoorbellClient.TriggerDoorbell (config : DoorbellConfig) (http : HttpResult) :
    Duration × Option DoorbellError × List Event :=
  if !config.Enabled then
    (0, none, [])
  else
    match http with
    | .transportError err => (0, some (.postFailed err), [Event.httpPost config.Host])
    | .response statusCode body =>
      if statusCode ≠ 200 then
        (0, some (.badStatus statusCode), [Event.httpPost config.Host])
      else
        match body with
        | none => (0, some .decodeFailed, [Event.httpPost config.Host])
        | some data =>
          let delayMs := Int.tdiv data.VoiceLengthMs 4
          let delay := wrapInt64 (delayMs * Millisecond)
          (delay, none, [Event.httpPost config.Host])

/-! ## `gate_controller.go` -/

/-- The struct `GateController`.  Its `doorbell` client holds a pointer to
`config.DoorbellConfig` and no state of its own, so it has no field. -/
structure GateController where
  config : Config
  gpio : GPIOInterface
  deriving DecidableEq, Repr

/-- `NewGateController`. -/
def NewGateController (config : Config) (gpio : GPIOInterface) : GateController :=
  { config := config, gpio := gpio }

/-- `GateController.UnlockGate`. -/
def GateController.UnlockGate (gc : GateController) : GateController × List Event :=
  ({ gc with gpio := gc.gpio.TriggerUnlockRelay.1 }, gc.gpio.TriggerUnlockRelay.2)

/-- Lines 35 to 44 of `CheckESPSignal`: the value of `delay` after the doorbell
block, and the events of the block. -/
def GateController.doorbellDelay (gc : GateController) (http : HttpResult) :
    Duration × List Event :=
  if gc.config.DoorbellConfig.Enabled then
    match DoorbellClient.TriggerDoorbell gc.config.DoorbellConfig http with
    | (_, some _, evs) => (0, Event.triggerDoorbell :: evs)
    | (delay, none, evs) => (delay, Event.triggerDoorbell :: evs)
  else
    (0, [])

/-- Lines 46 to 50 of `CheckESPSignal`: the sleep before the acknowledgement. -/
def GateController.waitDelay (delay : Duration) : List Event :=
  if delay > 0 then [Event.sleep delay] else []

/-- `GateController.CheckESPSignal`, one poll: `now` and `pin` are what
`IsESPSignalActive` reads, `http` the outcome of the doorbell request if one is
made. -/
def GateController.CheckESPSignal (gc : GateController) (now : Time) (pin : Level)
    (http : HttpResult) : GateController × List Event :=
  let r := gc.gpio.IsESPSignalActive now pin
  if r.1 then
    let d := gc.doorbellDelay http
    let g1 := r.2.SetESPResponse true
    let g2 := g1.SetESPResponse false
    ({ gc with gpio := g2 },
      [Event.isESPSignalActive true] ++ d.2 ++ GateController.waitDelay d.1 ++
        [Event.setESPResponse true, Event.sleep (100 * Millisecond),
         Event.setESPResponse false])
  else
    ({ gc with gpio := r.2 }, [Event.isESPSignalActive false])

/-! ## `api.go` -/

/-- `APIServer.handleButtonPress`, on the controller the server holds: a signal
is sent when the backend is the mock, nothing happens otherwise. -/
def APIServer.handleButtonPress (controller : GateController) : GateController :=
  match controller.gpio with
  | .mock gpioMock => { controller with gpio := .mock gpioMock.sendSignal }
  | .real _ => controller

/-- `APIServer.handleUnlock`. -/
def APIServer.handleUnlock (controller : GateController) : GateController × List Event :=
  controller.UnlockGate

/-! ## The mock backend under injected signals -/

/-- What happens to the mock backend: a signal is injected (`signalChan <- true`,
by `handleButtonPress` or by `readStdin` on the line `signal` or `s`), or the
poll loop calls `IsESPSignalActive` at the time `now`. -/
inductive MockOp where
  | inject
  | tick (now : Time)
  deriving DecidableEq, Repr

/-- The mock backend over a sequence of injections and ticks: the results of the
calls of `IsESPSignalActive`, in order, and the final state. -/
def MockGPIOManager.run (mgm : MockGPIOManager) : List MockOp → List Bool × MockGPIOManager
  | [] => ([], mgm)
  | MockOp.inject :: ops => MockGPIOManager.run mgm.sendSignal ops
  | MockOp.tick now :: ops =>
    let r := mgm.IsESPSignalActive now
    let rest := MockGPIOManager.run r.2 ops
    (r.1 :: rest.1, rest.2)

/-! ## `main.go`: the poll loop -/

/-- What one tick of the 100 ms ticker finds: the clock, the level of the input
pin and the outcome the doorbell request would have. -/
structure Tick where
  now : Time
  pin : Level
  http : HttpResult
  deriving DecidableEq, Repr

/-- The loop of `main`, `controller.CheckESPSignal()` once per tick, over the
ticks that arrive before the shutdown signal. -/
def pollLoop (gc : GateController) : List Tick → GateController × List Event
  | [] => (gc, [])
  | t :: ts =>
    let r := gc.CheckESPSignal t.now t.pin t.http
    let rest := pollLoop r.1 ts
    (rest.1, r.2 ++ rest.2)

/-- `IsESPSignalActive` called once per sample (a time and the level of the
input pin): the results in order and the final state. -/
def GPIOManager.sampleAll (gm : GPIOManager) : List (Time × Level) → List Bool × GPIOManager
  | [] => ([], gm)
  | s :: ss =>
    let r := gm.IsESPSignalActive s.1 s.2
    let rest := GPIOManager.sampleAll r.2 ss
    (r.1 :: rest.1, rest.2)

/-- The number of detections a trace accepted: the calls of `IsESPSignalActive`
that returned `true`. -/
def acceptedDetections (trace : List Event) : Nat :=
  trace.count (Event.isESPSignalActive true)

/-- Ticks of the 100 ms ticker from `t0` on, `n` of them, the input pin at
`level` at each: `(t0, level), (t0 + 100 ms, level), ...`. -/
def constantSamples (t0 : Time) (level : Level) : Nat → List (Time × Level)
  | 0 => []
  | n + 1 => (t0, level) :: constantSamples (t0 + 100 * Millisecond) level n

/-- The samples of a line held `High` for `L` milliseconds from the tick at
`t0`: the `L / 100` ticks at `t0, t0 + 100 ms, ..., t0 + (L - 100) ms`. -/
def holdSamples (t0 : Time) (L : Nat) : List (Time × Level) :=
  constantSamples t0 Level.High (L / 100)

/-- How many of the calls of `IsESPSignalActive`, one per sample, return `true`. -/
def GPIOManager.acceptedCount (gm : GPIOManager) (samples : List (Time × Level)) : Nat :=
  (gm.sampleAll samples).1.count true

/-- The quotient `a / b` rounded up. -/
def ceilDiv (a b : Nat) : Nat := (a + b - 1) / b

/-- The time a trace spends asleep before the acknowledgement pulse starts:
the sum of the sleeps that come before the first `SetESPResponse(true)`. -/
def delayBeforeAck : List Event → Duration
  | [] => 0
  | Event.setESPResponse true :: _ => 0
  | Event.sleep d :: rest => d + delayBeforeAck rest
  | _ :: rest => delayBeforeAck rest

/-- A configuration with the flag `doorbell.enabled` set to `enabled`. -/
def Config.withDoorbellEnabled (config : Config) (enabled : Bool) : Config :=
  { config with DoorbellConfig := { config.DoorbellConfig with Enabled := enabled } }

/-- Samples turned into ticks, the doorbell answering `http` at each. -/
def toTicks (http : HttpResult) (samples : List (Time × Level)) : List Tick :=
  samples.map fun s => { now := s.1, pin := s.2, http := http }

/-- Where a manager stands in the 300 ms cycle a held line goes through at tick
`t`: `k` counts the ticks that will still be rejected before the next one is
accepted. -/
def holdPhase (gm : GPIOManager) (t : Time) (k : Nat) : Prop :=
  gm.debounceTime = 250 * Millisecond ∧
  ((k = 0 ∧ 250 * Millisecond ≤ t - gm.lastSignalTime) ∨
   (k = 1 ∧ t - gm.lastSignalTime = 200 * Millisecond) ∨
   (k = 2 ∧ t - gm.lastSignalTime = 100 * Millisecond))

/-! ## Two concurrent calls of `TriggerUnlockRelay` -/

/-- Where one call of `TriggerUnlockRelay` stands between its statements. -/
inductive RelayCall where
  /-- Called; the relay line not yet written. -/
  | start
  /-- The relay line written `High`; `time.Sleep` not yet entered. -/
  | high
  /-- Inside `time.Sleep(500 * time.Millisecond)`, which returns no earlier than `wake`. -/
  | sleeping (wake : Time)
  /-- The relay line written `Low`; the call has returned. -/
  | done
  deriving DecidableEq, Repr

/-- Whether the call is between its write of `High` and its write of `Low`. -/
def RelayCall.midPulse : RelayCall → Bool
  | .high => true
  | .sleeping _ => true
  | _ => false

/-- The next statement of a call at the time `clock`: the call's new position
and the level it writes to the relay line, if it writes.  `none` when the call
cannot run: it is still asleep, or it has returned. -/
def RelayCall.next (c : RelayCall) (clock : Time) : Option (RelayCall × Option Level) :=
  match c with
  | .start => some (.high, some Level.High)
  | .high => some (.sleeping (clock + 500 * Millisecond), none)
  | .sleeping wake => if wake ≤ clock then some (.done, some Level.Low) else none
  | .done => none

/-- The two concurrent callers. -/
inductive Caller where
  | first
  | second
  deriving DecidableEq, Repr

/-- What the scheduler does next: it runs the next statement of one call, or
lets `d` nanoseconds pass. -/
inductive Action where
  | step (c : Caller)
  | wait (d : Nat)
  deriving DecidableEq, Repr

/-- The relay line and two calls of `TriggerUnlockRelay` on the same backend,
each in its own goroutine (the HTTP server runs every request in one). -/
structure RelayWorld where
  clock : Time
  relay : Level
  activeFor : Duration
  first : RelayCall
  second : RelayCall
  overlapped : Bool
  writes : List (Caller × Level)
  deriving DecidableEq, Repr

/-- The relay line `Low` (as `NewGPIOManager` and every finished pulse leave it)
and two calls about to start, at the time `t0`. -/
def RelayWorld.init (t0 : Time) : RelayWorld :=
  { clock := t0, relay := Level.Low, activeFor := 0, first := .start, second := .start,
    overlapped := false, writes := [] }

/-- One action of the scheduler.  A write to the relay line is a single step
(the hardware write; in the mock the assignment under the mutex).  The time the
line has been `High` grows while time passes with the line `High`.  `overlapped`
records whether a call has written `High` while the other call was between its
own two writes; `writes` lists the writes in order.  `none` when the chosen call
cannot run. -/
def RelayWorld.exec (w : RelayWorld) : Action → Option RelayWorld
  | .wait d =>
    some { w with
      clock := w.clock + d
      activeFor := if w.relay = Level.High then w.activeFor + d else w.activeFor }
  | .step .first =>
    match w.first.next w.clock with
    | none => none
    | some (c, none) => some { w with first := c }
    | some (c, some l) =>
      some { w with
        first := c
        relay := l
        overlapped := w.overlapped || (decide (l = Level.High) && w.second.midPulse)
        writes := w.writes ++ [(Caller.first, l)] }
  | .step .second =>
    match w.second.next w.clock with
    | none => none
    | some (c, none) => some { w with second := c }
    | some (c, some l) =>
      some { w with
        second := c
        relay := l
        overlapped := w.overlapped || (decide (l = Level.High) && w.first.midPulse)
        writes := w.writes ++ [(Caller.second, l)] }

/-- A schedule, action after action; `none` when it asks a call to run that
cannot. -/
def RelayWorld.run (w : RelayWorld) : List Action → Option RelayWorld
  | [] => some w
  | a :: as =>
    match w.exec a with
    | none => none
    | some w1 => RelayWorld.run w1 as

/-- The part of its 500 ms hold a call has behind it at the time `clock`. -/
def RelayCall.held (c : RelayCall) (clock : Time) : Duration :=
  match c with
  | .start => 0
  | .high => 0
  | .sleeping wake => if wake ≤ clock then 500 * Millisecond else clock + 500 * Millisecond - wake
  | .done => 500 * Millisecond

/-- What every reachable `RelayWorld` satisfies: the line has been `High` at
least as long as either call has held it, and as long as both together when
the calls have not overlapped; it is `High` while a call is between its writes
and no call has finished, and `Low` once both have. -/
structure RelayWorld.Inv (w : RelayWorld) : Prop where
  heldFirst : w.first.held w.clock ≤ w.activeFor
  heldSecond : w.second.held w.clock ≤ w.activeFor
  highWhile : w.first ≠ .done → w.second ≠ .done →
    (w.first.midPulse = true ∨ w.second.midPulse = true) → w.relay = Level.High
  lowAfter : w.first = .done → w.second = .done → w.relay = Level.Low
  serialOne : w.overlapped = false → ¬ (w.first.midPulse = true ∧ w.second.midPulse = true)
  serialHigh : w.overlapped = false →
    (w.first.midPulse = true ∨ w.second.midPulse = true) → w.relay = Level.High
  serialHeld : w.overlapped = false →
    w.first.held w.clock + w.second.held w.clock ≤ w.activeFor

/-! ## Concrete states used as examples -/

/-- A clock reading: 2026-11-02 00:00:00 UTC, in nanoseconds since the zero time. -/
def clock2026 : Time := 63929174400 * Second

/-- The hardware backend right after `NewGPIOManager` on the default pins. -/
def freshGPIOManager : GPIOManager :=
  { espResponsePin := Level.Low
    unlockRelayPin := Level.Low
    espSignalPinNum := 26
    espResponsePinNum := 15
    unlockRelayPinNum := 25
    lastSignalTime := zeroTime
    debounceTime := 250 * Millisecond }

/-- The mock backend right after `NewMockGPIOManager` on the default pins. -/
def freshMockGPIOManager : MockGPIOManager :=
  { espSignalPinNum := 26
    espResponsePinNum := 15
    unlockRelayPinNum := 25
    espSignalState := false
    espResponseState := false
    unlockRelayState := false
    lastSignalTime := zeroTime
    debounceTime := 250 * Millisecond
    signalChan := Chan.make 10
    shutdownClosed := false }

/-- The default configuration with the doorbell enabled. -/
def doorbellOnConfig : Config := defaultConfig.withDoorbellEnabled true

/-- A controller on the fresh hardware backend, doorbell enabled. -/
def doorbellOnController : GateController :=
  NewGateController doorbellOnConfig (GPIOInterface.real freshGPIOManager)

/-- A controller on the fresh hardware backend, doorbell disabled (the default). -/
def doorbellOffController : GateController :=
  NewGateController defaultConfig (GPIOInterface.real freshGPIOManager)

/-- A doorbell answer: status 200 and a body with the given voice length. -/
def doorbellAnswer (voiceLengthMs : Int) : HttpResult :=
  HttpResult.response 200 (some { Status := "ok", VoiceLengthMs := voiceLengthMs })

/-- A schedule that runs the first call to its end and then the second: write
`High`, enter the sleep, 500 ms pass, write `Low`, for each in turn. -/
def serialSchedule : List Action :=
  [Action.step Caller.first, Action.step Caller.first, Action.wait 500000000,
   Action.step Caller.first,
   Action.step Caller.second, Action.step Caller.second, Action.wait 500000000,
   Action.step Caller.second]

/-- A schedule in which the two calls overlap: both write `High`, both enter
their sleep, 500 ms pass, both write `Low`. -/
def overlappingSchedule : List Action :=
  [Action.step Caller.first, Action.step Caller.second,
   Action.step Caller.first, Action.step Caller.second,
   Action.wait 500000000,
   Action.step Caller.first, Action.step Caller.second]

/-! ## The debounce step -/

/-- Saturation does not change how `Time.Sub` compares with a duration that is
itself an `int64` above the minimum. -/
theorem Time.Sub_lt_iff (t u : Time) (d : Duration)
    (hlo : minDuration < d) (hhi : d ≤ maxDuration) :
    Time.Sub t u < d ↔ t - u < d := by
  unfold Time.Sub
  simp only [minDuration, maxDuration, Time, Duration] at *
  split
  · constructor
    · intro _; omega
    · intro _; exact hlo
  · split
    · constructor
      · intro h; omega
      · intro h; omega
    · exact Iff.rfl

/-- The 250 ms window is within the range where `Time.Sub_lt_iff` applies. -/
theorem Time.Sub_lt_window (t u : Time) :
    Time.Sub t u < 250 * Millisecond ↔ t - u < 250 * Millisecond :=
  Time.Sub_lt_iff t u _ (by decide) (by decide)

/-- The result of `GPIOManager.IsESPSignalActive` under the 250 ms window. -/
theorem GPIOManager.IsESPSignalActive_fst (gm : GPIOManager) (now : Time) (pin : Level)
    (hwin : gm.debounceTime = 250 * Millisecond) :
    (gm.IsESPSignalActive now pin).1 =
      decide (pin = Level.High ∧ 250 * Millisecond ≤ now - gm.lastSignalTime) := by
  unfold GPIOManager.IsESPSignalActive
  rw [hwin]
  by_cases h : now - gm.lastSignalTime < 250 * Millisecond
  · rw [if_pos ((Time.Sub_lt_window _ _).2 h)]
    simp only [Bool.false_eq, decide_eq_false_iff_not]
    intro hc
    exact absurd h (not_lt.2 hc.2)
  · rw [if_neg (fun hc => h ((Time.Sub_lt_window _ _).1 hc))]
    by_cases hp : pin = Level.High
    · rw [if_pos hp]
      simp only [Bool.true_eq, decide_eq_true_eq]
      exact ⟨hp, not_lt.1 h⟩
    · rw [if_neg hp]
      simp only [Bool.false_eq, decide_eq_false_iff_not]
      intro hc; exact hp hc.1

/-- The state after `GPIOManager.IsESPSignalActive`: `lastSignalTime` becomes
`now` when the call returns `true`, nothing changes otherwise. -/
theorem GPIOManager.IsESPSignalActive_snd (gm : GPIOManager) (now : Time) (pin : Level) :
    (gm.IsESPSignalActive now pin).2 =
      if (gm.IsESPSignalActive now pin).1 then { gm with lastSignalTime := now } else gm := by
  unfold GPIOManager.IsESPSignalActive
  split
  · rfl
  · split <;> rfl

/-- C1. Debounce step of `GPIOManager.IsESPSignalActive` with the 250 ms window:
for every state, every `now` and every sampled level the call returns `true`
exactly when the level is `High` and `now - lastSignalTime ≥ 250 ms`; when it
returns `true` the only change is `lastSignalTime := now`, when it returns
`false` the state is unchanged.  The manager `NewGPIOManager` builds has the
zero time as `lastSignalTime` and the 250 ms window, and accepts a first `High`
sample taken at a clock reading `first` that is at least 250 ms past the zero
time (January 1 of year 1), as every reading of the system clock is. -/
theorem IsESPSignalActive_debounce (gm fresh : GPIOManager) (now first : Time) (pin : Level)
    (a b c : Int)
    (hwin : gm.debounceTime = 250 * Millisecond)
    (hnew : NewGPIOManager none a b c = .ok fresh)
    (hfirst : 250 * Millisecond ≤ first - zeroTime) :
    ((gm.IsESPSignalActive now pin).1 = true ↔
        pin = Level.High ∧ now - gm.lastSignalTime ≥ 250 * Millisecond) ∧
    ((gm.IsESPSignalActive now pin).1 = true →
        (gm.IsESPSignalActive now pin).2 = { gm with lastSignalTime := now }) ∧
    ((gm.IsESPSignalActive now pin).1 = false → (gm.IsESPSignalActive now pin).2 = gm) ∧
    fresh.lastSignalTime = zeroTime ∧ fresh.debounceTime = 250 * Millisecond ∧
    (fresh.IsESPSignalActive first Level.High).1 = true := by
  simp only [NewGPIOManager, Except.ok.injEq] at hnew
  subst hnew
  refine ⟨?_, ?_, ?_, rfl, rfl, ?_⟩
  · rw [GPIOManager.IsESPSignalActive_fst gm now pin hwin]
    simp only [decide_eq_true_eq, ge_iff_le]
  · intro h
    rw [GPIOManager.IsESPSignalActive_snd, h]
    rfl
  · intro h
    rw [GPIOManager.IsESPSignalActive_snd, h]
    rfl
  · rw [GPIOManager.IsESPSignalActive_fst _ first Level.High rfl]
    simp only [decide_eq_true_eq, true_and]
    exact hfirst

/-- C1 at a concrete input: a manager whose last acceptance was at `clock2026`
sampled `High` 300 ms later, and the fresh manager on pins 26, 15, 25 sampled
`High` at `clock2026`. -/
theorem IsESPSignalActive_debounce_witness :
    (({ freshGPIOManager with lastSignalTime := clock2026 }.IsESPSignalActive
        (clock2026 + 300 * Millisecond) Level.High).1 = true) ∧
    (freshGPIOManager.IsESPSignalActive clock2026 Level.High).1 = true :=
  have h := IsESPSignalActive_debounce { freshGPIOManager with lastSignalTime := clock2026 }
    freshGPIOManager (clock2026 + 300 * Millisecond) clock2026 Level.High 26 15 25
    rfl rfl (by decide)
  ⟨h.1.2 ⟨rfl, by decide⟩, h.2.2.2.2.2⟩

/-! ## A held line under 100 ms polling -/

/-- `sampleAll` over two runs of samples, results. -/
theorem GPIOManager.sampleAll_append_fst (gm : GPIOManager) (xs ys : List (Time × Level)) :
    (gm.sampleAll (xs ++ ys)).1 =
      (gm.sampleAll xs).1 ++ ((gm.sampleAll xs).2.sampleAll ys).1 := by
  induction xs generalizing gm with
  | nil => rfl
  | cons x xs ih =>
    show _ :: (GPIOManager.sampleAll _ (xs ++ ys)).1 = _
    rw [ih]
    rfl

/-- While the pin is `Low` no call returns `true`. -/
theorem GPIOManager.acceptedCount_low (n : Nat) (gm : GPIOManager) (t : Time) :
    gm.acceptedCount (constantSamples t Level.Low n) = 0 := by
  induction n generalizing gm t with
  | zero => rfl
  | succ n ih =>
    have hstep : gm.IsESPSignalActive t Level.Low = (false, gm) := by
      unfold GPIOManager.IsESPSignalActive
      split
      · rfl
      · rfl
    have := ih gm (t + 100 * Millisecond)
    simp only [GPIOManager.acceptedCount] at this ⊢
    simp only [constantSamples, GPIOManager.sampleAll, hstep, List.count_cons, this]
    rfl

/-- On a held line one tick in three is accepted. -/
theorem GPIOManager.acceptedCount_high (n : Nat) (gm : GPIOManager) (t : Time) (k : Nat)
    (h : holdPhase gm t k) :
    gm.acceptedCount (constantSamples t Level.High n) = (n + 2 - k) / 3 := by
  induction n generalizing gm t k with
  | zero =>
    obtain ⟨_, h | h | h⟩ := h <;> obtain ⟨rfl, _⟩ := h <;> rfl
  | succ n ih =>
    obtain ⟨hwin, h⟩ := h
    have hfst := GPIOManager.IsESPSignalActive_fst gm t Level.High hwin
    have hsnd := GPIOManager.IsESPSignalActive_snd gm t Level.High
    rcases h with ⟨rfl, hk⟩ | ⟨rfl, hk⟩ | ⟨rfl, hk⟩
    · have h1 : (gm.IsESPSignalActive t Level.High).1 = true := by
        rw [hfst]; simp only [decide_eq_true_eq, true_and]; exact hk
      rw [h1] at hsnd
      have hnext := ih (gm.IsESPSignalActive t Level.High).2 (t + 100 * Millisecond) 2
        (by
          rw [hsnd]
          refine ⟨hwin, Or.inr (Or.inr ⟨rfl, ?_⟩)⟩
          simp only [Time, Duration, Millisecond, if_true] at *
          omega)
      simp only [GPIOManager.acceptedCount] at hnext ⊢
      simp only [constantSamples, GPIOManager.sampleAll, h1, List.count_cons, hnext]
      simp only [beq_self_eq_true, if_true]
      omega
    · have h1 : (gm.IsESPSignalActive t Level.High).1 = false := by
        rw [hfst]; simp only [decide_eq_false_iff_not, true_and, not_le]
        simp only [Time, Duration, Millisecond] at *
        omega
      rw [h1] at hsnd
      simp only [Bool.false_eq_true, if_false] at hsnd
      have hnext := ih (gm.IsESPSignalActive t Level.High).2 (t + 100 * Millisecond) 0
        (by
          rw [hsnd]
          refine ⟨hwin, Or.inl ⟨rfl, ?_⟩⟩
          simp only [Time, Duration, Millisecond, if_false] at *
          omega)
      simp only [GPIOManager.acceptedCount] at hnext ⊢
      simp only [constantSamples, GPIOManager.sampleAll, h1, List.count_cons, hnext]
      simp only [Bool.false_eq_true, beq_iff_eq, if_false]
      omega
    · have h1 : (gm.IsESPSignalActive t Level.High).1 = false := by
        rw [hfst]; simp only [decide_eq_false_iff_not, true_and, not_le]
        simp only [Time, Duration, Millisecond] at *
        omega
      rw [h1] at hsnd
      simp only [Bool.false_eq_true, if_false] at hsnd
      have hnext := ih (gm.IsESPSignalActive t Level.High).2 (t + 100 * Millisecond) 1
        (by
          rw [hsnd]
          refine ⟨hwin, Or.inr (Or.inl ⟨rfl, ?_⟩)⟩
          simp only [Time, Duration, Millisecond, if_false] at *
          omega)
      simp only [GPIOManager.acceptedCount] at hnext ⊢
      simp only [constantSamples, GPIOManager.sampleAll, h1, List.count_cons, hnext]
      simp only [Bool.false_eq_true, beq_iff_eq, if_false]
      omega

/-- The accepted calls over two runs of samples. -/
theorem GPIOManager.acceptedCount_append (gm : GPIOManager) (xs ys : List (Time × Level)) :
    gm.acceptedCount (xs ++ ys) =
      gm.acceptedCount xs + (gm.sampleAll xs).2.acceptedCount ys := by
  simp only [GPIOManager.acceptedCount, GPIOManager.sampleAll_append_fst, List.count_append]

/-- C2, as amended. A fresh manager (`NewGPIOManager`) polled every 100 ms from
a first tick `t0` (a clock reading at least 250 ms past the zero time) while the
line is `High` for `L > 0` milliseconds, `L` a multiple of 100, and `Low` at the
`m` ticks after that, accepts `ceil(L / 300)` detections: the first tick, and
then every third one, the first tick at which 250 ms have passed being 300 ms
after the last acceptance. -/
theorem hold_accepted_count (gm : GPIOManager) (a b c : Int) (t0 : Time) (L m : Nat)
    (hnew : NewGPIOManager none a b c = .ok gm)
    (hL : 0 < L) (hmul : L % 100 = 0)
    (ht0 : 250 * Millisecond ≤ t0 - zeroTime) :
    gm.acceptedCount
        (holdSamples t0 L ++ constantSamples (t0 + (L : Int) * Millisecond) Level.Low m) =
      ceilDiv L 300 := by
  simp only [NewGPIOManager, Except.ok.injEq] at hnew
  subst hnew
  rw [GPIOManager.acceptedCount_append, GPIOManager.acceptedCount_low, holdSamples,
    GPIOManager.acceptedCount_high (L / 100) _ t0 0 ⟨rfl, Or.inl ⟨rfl, ht0⟩⟩]
  unfold ceilDiv
  omega

/-- C2, as amended, at a concrete input: a hold of 700 ms from `clock2026`,
followed by four `Low` ticks, is accepted three times (at 0, 300 and 600 ms). -/
theorem hold_accepted_count_witness :
    freshGPIOManager.acceptedCount
        (holdSamples clock2026 700 ++
          constantSamples (clock2026 + (700 : Nat) * Millisecond) Level.Low 4) = 3 :=
  hold_accepted_count freshGPIOManager 26 15 25 clock2026 700 4 rfl (by decide) (by decide)
    (by decide)

/-- C2 as stated fails. A hold of 300 ms sampled at `clock2026`, `+100 ms`,
`+200 ms` is accepted once, while `ceil(300 / 250) = 2`.  Counting the tick at
the end of the hold as well does not help: a hold of 800 ms sampled at the nine
ticks `clock2026, ..., clock2026 + 800 ms` is accepted three times, while
`ceil(800 / 250) = 4`. -/
theorem hold_300ms_accepted_once :
    freshGPIOManager.acceptedCount (holdSamples clock2026 300) = 1 ∧
    ceilDiv 300 250 = 2 ∧
    freshGPIOManager.acceptedCount (constantSamples clock2026 Level.High 9) = 3 ∧
    ceilDiv 800 250 = 4 := by
  refine ⟨?_, ?_, ?_, ?_⟩ <;> decide

/-! ## The acknowledgement pulse -/

/-- After `SetESPResponse(active)` the response line is at the level asked for,
on either backend. -/
theorem GPIOInterface.responseLine_SetESPResponse (g : GPIOInterface) (active : Bool) :
    (g.SetESPResponse active).responseLine = if active then Level.High else Level.Low := by
  cases g with
  | real gm =>
    cases active <;> rfl
  | mock mgm =>
    simp only [GPIOInterface.SetESPResponse, GPIOInterface.responseLine,
      MockGPIOManager.SetESPResponse]
    cases hs : mgm.espResponseState <;> cases active <;> simp [hs]

/-- `SetESPResponse` leaves the relay line alone. -/
theorem GPIOInterface.relayLine_SetESPResponse (g : GPIOInterface) (active : Bool) :
    (g.SetESPResponse active).relayLine = g.relayLine := by
  cases g with
  | real gm =>
    cases active <;> rfl
  | mock mgm =>
    simp only [GPIOInterface.SetESPResponse, GPIOInterface.relayLine,
      MockGPIOManager.SetESPResponse]
    split <;> rfl

/-- The doorbell block of `CheckESPSignal` only calls the doorbell. -/
theorem GateController.doorbellDelay_events (gc : GateController) (http : HttpResult) :
    ∀ e ∈ (gc.doorbellDelay http).2,
      e = Event.triggerDoorbell ∨ e = Event.httpPost gc.config.DoorbellConfig.Host := by
  intro e he
  unfold GateController.doorbellDelay DoorbellClient.TriggerDoorbell at he
  cases hen : gc.config.DoorbellConfig.Enabled
  · simp [hen] at he
  · rcases http with err | ⟨code, body⟩
    · simp [hen] at he
      exact he
    · by_cases hc : code = 200
      · rcases body with _ | data
        · simp [hen, hc] at he
          exact he
        · simp [hen, hc] at he
          exact he
      · simp [hen, hc] at he
        exact he

/-- The sleep before the acknowledgement is a sleep. -/
theorem GateController.waitDelay_events (delay : Duration) :
    ∀ e ∈ GateController.waitDelay delay, e = Event.sleep delay := by
  intro e he
  unfold GateController.waitDelay at he
  split at he
  · simpa using he
  · simp at he

/-- The trace and the final backend of a poll that accepted a detection. -/
theorem GateController.CheckESPSignal_accepted (gc : GateController) (now : Time) (pin : Level)
    (http : HttpResult) (hacc : (gc.gpio.IsESPSignalActive now pin).1 = true) :
    gc.CheckESPSignal now pin http =
      ({ gc with gpio := ((gc.gpio.IsESPSignalActive now pin).2.SetESPResponse
            true).SetESPResponse false },
        [Event.isESPSignalActive true] ++ (gc.doorbellDelay http).2 ++
          GateController.waitDelay (gc.doorbellDelay http).1 ++
          [Event.setESPResponse true, Event.sleep (100 * Millisecond),
           Event.setESPResponse false]) := by
  unfold GateController.CheckESPSignal
  simp only [hacc, if_true]

/-- The trace and the final backend of a poll that accepted nothing. -/
theorem GateController.CheckESPSignal_rejected (gc : GateController) (now : Time) (pin : Level)
    (http : HttpResult) (hrej : (gc.gpio.IsESPSignalActive now pin).1 = false) :
    gc.CheckESPSignal now pin http =
      ({ gc with gpio := (gc.gpio.IsESPSignalActive now pin).2 },
        [Event.isESPSignalActive false]) := by
  unfold GateController.CheckESPSignal
  simp only [hrej, Bool.false_eq_true, if_false]

/-- C3. Once `IsESPSignalActive` has accepted a detection, `CheckESPSignal`
performs the acknowledgement pulse whatever the doorbell does (`http` is any
outcome, the configuration is any, the backend is either): its trace is some
events `pre` that do not touch the response line (the accepted read, the
doorbell call and its request, the delay) followed by exactly
`SetESPResponse(true)`, a sleep of 100 ms, `SetESPResponse(false)`; the response
line is `High` during the hold and `Low` at the end.  `CheckESPSignal` has no
error result: the embedding is a total function that returns the new state. -/
theorem CheckESPSignal_acknowledges (gc : GateController) (now : Time) (pin : Level)
    (http : HttpResult) (hacc : (gc.gpio.IsESPSignalActive now pin).1 = true) :
    ∃ pre : List Event,
      (gc.CheckESPSignal now pin http).2 =
        pre ++ [Event.setESPResponse true, Event.sleep (100 * Millisecond),
                Event.setESPResponse false] ∧
      (∀ e ∈ pre, ∀ active, e ≠ Event.setESPResponse active) ∧
      ((gc.gpio.IsESPSignalActive now pin).2.SetESPResponse true).responseLine = Level.High ∧
      (gc.CheckESPSignal now pin http).1.gpio.responseLine = Level.Low := by
  rw [GateController.CheckESPSignal_accepted gc now pin http hacc]
  refine ⟨[Event.isESPSignalActive true] ++ (gc.doorbellDelay http).2 ++
      GateController.waitDelay (gc.doorbellDelay http).1, rfl, ?_, ?_, ?_⟩
  · intro e he active
    simp only [List.mem_append, List.mem_singleton] at he
    rcases he with (he | he) | he
    · rw [he]; exact fun h => Event.noConfusion h
    · rcases GateController.doorbellDelay_events gc http e he with h | h
      · rw [h]; exact fun h => Event.noConfusion h
      · rw [h]; exact fun h => Event.noConfusion h
    · rw [GateController.waitDelay_events _ e he]; exact fun h => Event.noConfusion h
  · rw [GPIOInterface.responseLine_SetESPResponse]; rfl
  · show (GPIOInterface.SetESPResponse _ false).responseLine = Level.Low
    rw [GPIOInterface.responseLine_SetESPResponse]; rfl

/-- C3 at a concrete input: the fresh hardware backend, doorbell enabled, a
`High` sample at `clock2026` and a doorbell request that times out. -/
theorem CheckESPSignal_acknowledges_witness :
    ∃ pre : List Event,
      (doorbellOnController.CheckESPSignal clock2026 Level.High
          (HttpResult.transportError "timeout")).2 =
        pre ++ [Event.setESPResponse true, Event.sleep (100 * Millisecond),
                Event.setESPResponse false] ∧
      (∀ e ∈ pre, ∀ active, e ≠ Event.setESPResponse active) ∧
      ((doorbellOnController.gpio.IsESPSignalActive clock2026 Level.High).2.SetESPResponse
          true).responseLine = Level.High ∧
      (doorbellOnController.CheckESPSignal clock2026 Level.High
          (HttpResult.transportError "timeout")).1.gpio.responseLine = Level.Low :=
  CheckESPSignal_acknowledges doorbellOnController clock2026 Level.High
    (HttpResult.transportError "timeout") (by decide)

/-! ## The delay before the acknowledgement -/

/-- A product that fits an `int64` is not changed by the wrap-around. -/
theorem wrapInt64_of_fits (x : Int) (hlo : minDuration ≤ x) (hhi : x ≤ maxDuration) :
    wrapInt64 x = x := by
  simp only [wrapInt64, minDuration, maxDuration, Duration] at *
  omega

/-- The delay of a poll that accepted a detection, from the value the doorbell
block leaves in `delay`: the sleep happens only for a positive value. -/
theorem GateController.delayBeforeAck_accepted (gc : GateController) (now : Time) (pin : Level)
    (http : HttpResult) (hacc : (gc.gpio.IsESPSignalActive now pin).1 = true) :
    delayBeforeAck (gc.CheckESPSignal now pin http).2 =
      if (gc.doorbellDelay http).1 > 0 then (gc.doorbellDelay http).1 else 0 := by
  rw [GateController.CheckESPSignal_accepted gc now pin http hacc]
  have hskip : ∀ (pre : List Event) (rest : List Event),
      (∀ e ∈ pre, e = Event.isESPSignalActive true ∨ e = Event.triggerDoorbell ∨
        e = Event.httpPost gc.config.DoorbellConfig.Host) →
      delayBeforeAck (pre ++ rest) = delayBeforeAck rest := by
    intro pre rest
    induction pre with
    | nil => intro _; rfl
    | cons e pre ih =>
      intro h
      have hrest := ih (fun e he => h e (List.mem_cons_of_mem _ he))
      rcases h e (List.mem_cons_self _ _) with he | he | he
      · rw [he]; simpa only [List.cons_append, delayBeforeAck] using hrest
      · rw [he]; simpa only [List.cons_append, delayBeforeAck] using hrest
      · rw [he]; simpa only [List.cons_append, delayBeforeAck] using hrest
  rw [List.append_assoc, hskip]
  · unfold GateController.waitDelay
    split
    · simp [delayBeforeAck]
    · simp [delayBeforeAck]
  · intro e he
    simp only [List.mem_append, List.mem_singleton] at he
    rcases he with he | he
    · exact Or.inl he
    · exact Or.inr (GateController.doorbellDelay_events gc http e he)

/-- C4, as amended. For a poll that accepted a detection, on either backend:
with the doorbell enabled and an answer of status 200 that decodes to
`voiceLengthMs = v`, `0 ≤ v ≤ 36893488147419` (so that `v / 4` milliseconds is a
number of nanoseconds that fits an `int64`), the time slept before the
acknowledgement pulse is `v / 4` milliseconds; it is 0 when the request fails in
transport, when the status is not 200 and when the body does not decode; with
the doorbell disabled it is 0 and neither `TriggerDoorbell` is called nor a
request made. -/
theorem CheckESPSignal_delay (config : Config) (g : GPIOInterface) (now : Time) (pin : Level)
    (status err : String) (v code : Int) (body : Option DoorbellResponse) (http : HttpResult)
    (hacc : (g.IsESPSignalActive now pin).1 = true)
    (hlo : 0 ≤ v) (hhi : v ≤ 36893488147419) (hcode : code ≠ 200) :
    delayBeforeAck ((NewGateController (config.withDoorbellEnabled true) g).CheckESPSignal now pin
        (HttpResult.response 200 (some { Status := status, VoiceLengthMs := v }))).2 =
      v / 4 * Millisecond ∧
    delayBeforeAck ((NewGateController (config.withDoorbellEnabled true) g).CheckESPSignal now pin
        (HttpResult.transportError err)).2 = 0 ∧
    delayBeforeAck ((NewGateController (config.withDoorbellEnabled true) g).CheckESPSignal now pin
        (HttpResult.response code body)).2 = 0 ∧
    delayBeforeAck ((NewGateController (config.withDoorbellEnabled true) g).CheckESPSignal now pin
        (HttpResult.response 200 none)).2 = 0 ∧
    delayBeforeAck ((NewGateController (config.withDoorbellEnabled false) g).CheckESPSignal now
        pin http).2 = 0 ∧
    Event.triggerDoorbell ∉
      ((NewGateController (config.withDoorbellEnabled false) g).CheckESPSignal now pin http).2 ∧
    ∀ host, Event.httpPost host ∉
      ((NewGateController (config.withDoorbellEnabled false) g).CheckESPSignal now pin http).2 := by
  have hon : ∀ h, delayBeforeAck ((NewGateController (config.withDoorbellEnabled true)
      g).CheckESPSignal now pin h).2 = _ :=
    fun h => GateController.delayBeforeAck_accepted
      (NewGateController (config.withDoorbellEnabled true) g) now pin h hacc
  have hoff := GateController.delayBeforeAck_accepted
      (NewGateController (config.withDoorbellEnabled false) g) now pin http hacc
  refine ⟨?_, ?_, ?_, ?_, ?_, ?_, ?_⟩
  · rw [hon]
    have hdiv : Int.tdiv v 4 = v / 4 := Int.tdiv_eq_ediv hlo (by decide)
    have hfit : wrapInt64 (v / 4 * Millisecond) = v / 4 * Millisecond := by
      apply wrapInt64_of_fits
      · simp only [minDuration, Millisecond, Duration] at *; omega
      · simp only [maxDuration, Millisecond, Duration] at *; omega
    simp only [GateController.doorbellDelay, NewGateController, Config.withDoorbellEnabled,
      DoorbellClient.TriggerDoorbell, if_true, Bool.not_true, Bool.false_eq_true, if_false,
      ne_eq, not_true_eq_false, hdiv, hfit]
    split
    · rfl
    · simp only [Millisecond, Duration] at *; omega
  · rw [hon]
    simp [GateController.doorbellDelay, NewGateController, Config.withDoorbellEnabled,
      DoorbellClient.TriggerDoorbell]
  · rw [hon]
    simp [GateController.doorbellDelay, NewGateController, Config.withDoorbellEnabled,
      DoorbellClient.TriggerDoorbell, hcode]
  · rw [hon]
    simp [GateController.doorbellDelay, NewGateController, Config.withDoorbellEnabled,
      DoorbellClient.TriggerDoorbell]
  · rw [hoff]
    simp [GateController.doorbellDelay, NewGateController, Config.withDoorbellEnabled]
  · rw [GateController.CheckESPSignal_accepted _ now pin http hacc]
    simp [GateController.doorbellDelay, NewGateController, Config.withDoorbellEnabled,
      GateController.waitDelay]
  · intro host
    rw [GateController.CheckESPSignal_accepted _ now pin http hacc]
    simp [GateController.doorbellDelay, NewGateController, Config.withDoorbellEnabled,
      GateController.waitDelay]

/-- C4, as amended, at a concrete input: the fresh hardware backend, a `High`
sample at `clock2026`; a voice length of 2000 ms gives a delay of exactly
500 ms, the disabled doorbell none. -/
theorem CheckESPSignal_delay_witness :
    delayBeforeAck ((NewGateController (defaultConfig.withDoorbellEnabled true)
        (GPIOInterface.real freshGPIOManager)).CheckESPSignal clock2026 Level.High
        (HttpResult.response 200 (some { Status := "ok", VoiceLengthMs := 2000 }))).2 =
      500 * Millisecond ∧
    delayBeforeAck ((NewGateController (defaultConfig.withDoorbellEnabled false)
        (GPIOInterface.real freshGPIOManager)).CheckESPSignal clock2026 Level.High
        (HttpResult.transportError "refused")).2 = 0 :=
  have h := CheckESPSignal_delay defaultConfig (GPIOInterface.real freshGPIOManager) clock2026
    Level.High "ok" "timeout" 2000 503 none (HttpResult.transportError "refused")
    (by decide) (by decide) (by decide) (by decide)
  ⟨h.1.trans (by decide), h.2.2.2.2.1⟩

/-- C4 as stated fails for a voice length whose quarter, in nanoseconds, does
not fit an `int64`: the doorbell answers `voice_length_ms = 73786976294840`, a
quarter of which is 18446744073710 ms; `time.Duration(delayMs) * time.Millisecond`
wraps to 448384 ns, `TriggerDoorbell` returns that, and `CheckESPSignal` sleeps
448384 ns (about 0.45 ms) before the acknowledgement pulse. -/
theorem doorbell_delay_wraps :
    (DoorbellClient.TriggerDoorbell doorbellOnConfig.DoorbellConfig
        (doorbellAnswer 73786976294840)).1 = 448384 ∧
    delayBeforeAck (doorbellOnController.CheckESPSignal clock2026 Level.High
        (doorbellAnswer 73786976294840)).2 = 448384 ∧
    (73786976294840 : Int) / 4 * Millisecond = 18446744073710000000 := by
  refine ⟨?_, ?_, ?_⟩ <;> decide

/-! ## The relay pulse -/

/-- C6. For every controller state, on either backend, `UnlockGate` writes the
relay line `High`, sleeps exactly 500 ms and writes it `Low`, in that order and
nothing else; the relay line is `Low` when the call returns.  The call is total
and its trace does not depend on the state (`lastSignalTime` included); it
leaves `lastSignalTime`, the response line and the configuration unchanged. -/
theorem UnlockGate_pulse (gc : GateController) :
    gc.UnlockGate.2 =
      [Event.relayWrite Level.High, Event.sleep (500 * Millisecond),
       Event.relayWrite Level.Low] ∧
    gc.UnlockGate.1.gpio.relayLine = Level.Low ∧
    gc.UnlockGate.1.gpio.lastSignalTime = gc.gpio.lastSignalTime ∧
    gc.UnlockGate.1.gpio.responseLine = gc.gpio.responseLine ∧
    gc.UnlockGate.1.config = gc.config := by
  obtain ⟨config, g⟩ := gc
  cases g <;> exact ⟨rfl, rfl, rfl, rfl, rfl⟩

/-! ## Three ticks `High`, then `Low` -/

/-- The poll loop over two runs of ticks. -/
theorem pollLoop_append (gc : GateController) (xs ys : List Tick) :
    pollLoop gc (xs ++ ys) =
      ((pollLoop (pollLoop gc xs).1 ys).1, (pollLoop gc xs).2 ++ (pollLoop (pollLoop gc xs).1 ys).2) := by
  induction xs generalizing gc with
  | nil => rfl
  | cons x xs ih =>
    show ((pollLoop _ (xs ++ ys)).1, _ ++ (pollLoop _ (xs ++ ys)).2) = _
    rw [ih]
    simp only [pollLoop, List.append_assoc]

/-- Inside the window the hardware backend rejects whatever the pin shows. -/
theorem GPIOManager.IsESPSignalActive_inside (gm : GPIOManager) (now : Time) (pin : Level)
    (hwin : gm.debounceTime = 250 * Millisecond)
    (h : now - gm.lastSignalTime < 250 * Millisecond) :
    gm.IsESPSignalActive now pin = (false, gm) := by
  unfold GPIOManager.IsESPSignalActive
  rw [hwin, if_pos ((Time.Sub_lt_window _ _).2 h)]

/-- A `Low` pin is rejected and changes nothing. -/
theorem GPIOManager.IsESPSignalActive_low (gm : GPIOManager) (now : Time) :
    gm.IsESPSignalActive now Level.Low = (false, gm) := by
  unfold GPIOManager.IsESPSignalActive
  split
  · rfl
  · rfl

/-- Polling the hardware backend while the pin is `Low` only records rejected
reads. -/
theorem pollLoop_low (m : Nat) (config : Config) (gm : GPIOManager) (t : Time)
    (http : HttpResult) :
    pollLoop { config := config, gpio := GPIOInterface.real gm }
        (toTicks http (constantSamples t Level.Low m)) =
      ({ config := config, gpio := GPIOInterface.real gm },
        List.replicate m (Event.isESPSignalActive false)) := by
  induction m generalizing t with
  | zero => rfl
  | succ m ih =>
    have hstep : GateController.CheckESPSignal { config := config, gpio := GPIOInterface.real gm }
        t Level.Low http =
        ({ config := config, gpio := GPIOInterface.real gm }, [Event.isESPSignalActive false]) := by
      rw [GateController.CheckESPSignal_rejected _ _ _ _
        (by simp only [GPIOInterface.IsESPSignalActive, GPIOManager.IsESPSignalActive_low])]
      simp only [GPIOInterface.IsESPSignalActive, GPIOManager.IsESPSignalActive_low]
    simp only [toTicks, constantSamples, List.map_cons, pollLoop, hstep]
    have := ih (t + 100 * Millisecond)
    simp only [toTicks] at this
    rw [this]
    rfl

/-- Outside the window the hardware backend accepts a `High` pin and records
the time. -/
theorem GPIOManager.IsESPSignalActive_outside (gm : GPIOManager) (now : Time)
    (hwin : gm.debounceTime = 250 * Millisecond)
    (h : 250 * Millisecond ≤ now - gm.lastSignalTime) :
    gm.IsESPSignalActive now Level.High = (true, { gm with lastSignalTime := now }) := by
  unfold GPIOManager.IsESPSignalActive
  rw [hwin, if_neg (fun hc => absurd ((Time.Sub_lt_window _ _).1 hc) (not_lt.2 h))]
  rfl

/-- What `NewGPIOManager` returns when `rpio.Open()` succeeds. -/
theorem NewGPIOManager_ok (a b c : Int) (gm : GPIOManager)
    (hnew : NewGPIOManager none a b c = .ok gm) :
    gm.debounceTime = 250 * Millisecond ∧ gm.lastSignalTime = zeroTime ∧
    gm.espResponsePin = Level.Low ∧ gm.unlockRelayPin = Level.Low := by
  simp only [NewGPIOManager, Except.ok.injEq] at hnew
  subst hnew
  exact ⟨rfl, rfl, rfl, rfl⟩

/-- One accepted poll on the hardware backend with the doorbell disabled. -/
theorem GateController.CheckESPSignal_real_accept (config : Config) (gm : GPIOManager)
    (t : Time) (http : HttpResult)
    (hoff : config.DoorbellConfig.Enabled = false)
    (hwin : gm.debounceTime = 250 * Millisecond)
    (ht : 250 * Millisecond ≤ t - gm.lastSignalTime) :
    GateController.CheckESPSignal ⟨config, GPIOInterface.real gm⟩ t Level.High http =
      (⟨config, GPIOInterface.real
          { gm with lastSignalTime := t, espResponsePin := Level.Low }⟩,
        [Event.isESPSignalActive true, Event.setESPResponse true,
         Event.sleep (100 * Millisecond), Event.setESPResponse false]) := by
  have hact := GPIOManager.IsESPSignalActive_outside gm t hwin ht
  rw [GateController.CheckESPSignal_accepted _ _ _ _
    (by simp only [GPIOInterface.IsESPSignalActive, hact])]
  simp only [GPIOInterface.IsESPSignalActive, hact, GateController.doorbellDelay, hoff,
    GateController.waitDelay, Bool.false_eq_true, if_false, gt_iff_lt, lt_self_iff_false,
    List.append_nil, List.singleton_append, List.cons_append, List.nil_append]
  rfl

/-- One poll of the hardware backend inside the window. -/
theorem GateController.CheckESPSignal_real_inside (config : Config) (gm : GPIOManager)
    (now : Time) (pin : Level) (http : HttpResult)
    (hwin : gm.debounceTime = 250 * Millisecond)
    (h : now - gm.lastSignalTime < 250 * Millisecond) :
    GateController.CheckESPSignal ⟨config, GPIOInterface.real gm⟩ now pin http =
      (⟨config, GPIOInterface.real gm⟩, [Event.isESPSignalActive false]) := by
  have hact := GPIOManager.IsESPSignalActive_inside gm now pin hwin h
  rw [GateController.CheckESPSignal_rejected _ _ _ _
    (by simp only [GPIOInterface.IsESPSignalActive, hact])]
  simp only [GPIOInterface.IsESPSignalActive, hact]

/-- Three `High` ticks from a tick that is accepted: one acceptance, one
acknowledgement pulse, two rejected reads. -/
theorem pollLoop_three_high (config : Config) (gm : GPIOManager) (t : Time) (http : HttpResult)
    (hoff : config.DoorbellConfig.Enabled = false)
    (hwin : gm.debounceTime = 250 * Millisecond)
    (ht : 250 * Millisecond ≤ t - gm.lastSignalTime) :
    pollLoop ⟨config, GPIOInterface.real gm⟩ (toTicks http (constantSamples t Level.High 3)) =
      (⟨config, GPIOInterface.real
          { gm with lastSignalTime := t, espResponsePin := Level.Low }⟩,
        [Event.isESPSignalActive true, Event.setESPResponse true,
         Event.sleep (100 * Millisecond), Event.setESPResponse false,
         Event.isESPSignalActive false, Event.isESPSignalActive false]) := by
  have h1 := GateController.CheckESPSignal_real_accept config gm t http hoff hwin ht
  have h2 := GateController.CheckESPSignal_real_inside config
    { gm with lastSignalTime := t, espResponsePin := Level.Low } (t + 100 * Millisecond)
    Level.High http hwin (by simp only [Time, Duration, Millisecond] at *; omega)
  have h3 := GateController.CheckESPSignal_real_inside config
    { gm with lastSignalTime := t, espResponsePin := Level.Low }
    (t + 100 * Millisecond + 100 * Millisecond)
    Level.High http hwin (by simp only [Time, Duration, Millisecond] at *; omega)
  simp only [toTicks, constantSamples, List.map_cons, List.map_nil, pollLoop, h1, h2, h3]
  rfl

/-- C7. Scenario: doorbell disabled, a fresh hardware backend (`NewGPIOManager`),
the input pin `High` at the three ticks `t`, `t + 100 ms`, `t + 200 ms` (`t` a
clock reading at least 250 ms past the zero time) and `Low` at the `m` ticks
after them.  The poll loop's trace is: the read at `t` accepted,
`SetESPResponse(true)`, a sleep of 100 ms, `SetESPResponse(false)`, and then only
rejected reads.  So exactly one detection is accepted, at the first tick, there
is exactly one acknowledgement pulse, and the response line ends `Low`. -/
theorem three_ticks_one_pulse (config : Config) (gm : GPIOManager) (a b c : Int) (t : Time)
    (m : Nat) (http : HttpResult)
    (hnew : NewGPIOManager none a b c = .ok gm)
    (hoff : config.DoorbellConfig.Enabled = false)
    (ht : 250 * Millisecond ≤ t - zeroTime) :
    (pollLoop (NewGateController config (GPIOInterface.real gm))
        (toTicks http (constantSamples t Level.High 3 ++
          constantSamples (t + 300 * Millisecond) Level.Low m))).2 =
      [Event.isESPSignalActive true, Event.setESPResponse true,
       Event.sleep (100 * Millisecond), Event.setESPResponse false,
       Event.isESPSignalActive false, Event.isESPSignalActive false] ++
        List.replicate m (Event.isESPSignalActive false) ∧
    acceptedDetections (pollLoop (NewGateController config (GPIOInterface.real gm))
        (toTicks http (constantSamples t Level.High 3 ++
          constantSamples (t + 300 * Millisecond) Level.Low m))).2 = 1 ∧
    (pollLoop (NewGateController config (GPIOInterface.real gm))
        (toTicks http (constantSamples t Level.High 3 ++
          constantSamples (t + 300 * Millisecond) Level.Low m))).2.count
        (Event.setESPResponse true) = 1 ∧
    (pollLoop (NewGateController config (GPIOInterface.real gm))
        (toTicks http (constantSamples t Level.High 3 ++
          constantSamples (t + 300 * Millisecond) Level.Low m))).1.gpio.responseLine =
      Level.Low := by
  obtain ⟨hwin, hlast, _, _⟩ := NewGPIOManager_ok a b c gm hnew
  have hsplit : toTicks http (constantSamples t Level.High 3 ++
        constantSamples (t + 300 * Millisecond) Level.Low m) =
      toTicks http (constantSamples t Level.High 3) ++
        toTicks http (constantSamples (t + 300 * Millisecond) Level.Low m) := by
    simp only [toTicks, List.map_append]
  have hrun : pollLoop (NewGateController config (GPIOInterface.real gm))
        (toTicks http (constantSamples t Level.High 3 ++
          constantSamples (t + 300 * Millisecond) Level.Low m)) =
      (⟨config, GPIOInterface.real
          { gm with lastSignalTime := t, espResponsePin := Level.Low }⟩,
        [Event.isESPSignalActive true, Event.setESPResponse true,
         Event.sleep (100 * Millisecond), Event.setESPResponse false,
         Event.isESPSignalActive false, Event.isESPSignalActive false] ++
          List.replicate m (Event.isESPSignalActive false)) := by
    rw [hsplit, pollLoop_append, NewGateController,
      pollLoop_three_high config gm t http hoff hwin (by rw [hlast]; exact ht), pollLoop_low]
  rw [hrun]
  refine ⟨rfl, ?_, ?_, rfl⟩
  · simp [acceptedDetections, List.count_replicate]
  · simp [List.count_replicate]

/-- C7 at a concrete input: the default configuration (doorbell disabled), the
fresh hardware backend, three `High` ticks from `clock2026` and five `Low` ticks. -/
theorem three_ticks_one_pulse_witness :
    acceptedDetections (pollLoop doorbellOffController
        (toTicks (HttpResult.transportError "unused")
          (constantSamples clock2026 Level.High 3 ++
            constantSamples (clock2026 + 300 * Millisecond) Level.Low 5))).2 = 1 :=
  (three_ticks_one_pulse defaultConfig freshGPIOManager 26 15 25 clock2026 5
    (HttpResult.transportError "unused") rfl rfl (by decide)).2.1

/-! ## `Close` -/

/-- C5, the failing input. The mock backend in the middle of a relay pulse
(`unlockRelayState = true`, the state between the two writes of
`MockGPIOManager.TriggerUnlockRelay`), its `shutdown` channel open: `Close`
returns normally, has cleared the response line and leaves the relay line
`High`.  In general a `MockGPIOManager.Close` that returns has cleared the
response line and not written the relay line, while `GPIOManager.Close`, the same
method of the hardware backend, called with the registers mapped, drives both
lines `Low` from every state of the manager. -/
theorem mock_Close_leaves_relay_high :
    MockGPIOManager.Close { freshMockGPIOManager with unlockRelayState := true } =
      .ok { freshMockGPIOManager with unlockRelayState := true, shutdownClosed := true } ∧
    (∀ lib : Rpio,
      ((GPIOInterface.mock { freshMockGPIOManager with unlockRelayState := true }).Close
          lib).map (fun r => r.1.relayLine) = .ok Level.High) ∧
    (∀ lib : Rpio,
      ((GPIOInterface.mock { freshMockGPIOManager with unlockRelayState := true }).Close
          lib).map (fun r => r.1.responseLine) = .ok Level.Low) ∧
    (∀ mgm closed : MockGPIOManager, mgm.Close = .ok closed →
      closed.unlockRelayState = mgm.unlockRelayState ∧ closed.espResponseState = false) ∧
    (∀ gm : GPIOManager, ∃ closed : GPIOManager,
      gm.Close Rpio.mapped = .ok (closed, Rpio.unmapped) ∧
      closed.espResponsePin = Level.Low ∧ closed.unlockRelayPin = Level.Low) := by
  refine ⟨rfl, fun _ => rfl, fun _ => rfl, ?_, fun gm => ⟨_, rfl, rfl, rfl⟩⟩
  intro mgm closed h
  unfold MockGPIOManager.Close at h
  split at h
  · cases h
  · simp only [Except.ok.injEq] at h
    subst h
    simp only [MockGPIOManager.SetESPResponse]
    cases hs : mgm.espResponseState <;> simp [hs]

/-- C8, as amended. `Close` completes once and is not idempotent, on either
backend.  On the mock backend `Close` succeeds when the `shutdown` channel is
still open, closing it and clearing the response line, and a second `Close`
then panics with `close of closed channel`.  On the hardware backend `Close`
succeeds while `rpio` has the registers mapped, driving both outputs `Low` and
unmapping the registers, and a second `Close` then faults at its first pin
write; indeed `Close` faults on every manager once the registers are unmapped. -/
theorem Close_once (mgm : MockGPIOManager) (gm : GPIOManager)
    (hopen : mgm.shutdownClosed = false) :
    (∃ closed : MockGPIOManager, mgm.Close = .ok closed ∧
      closed.shutdownClosed = true ∧ closed.espResponseState = false ∧
      closed.Close = .error Panic.closeOfClosedChannel) ∧
    (∃ closed : GPIOManager, gm.Close Rpio.mapped = .ok (closed, Rpio.unmapped) ∧
      closed.espResponsePin = Level.Low ∧ closed.unlockRelayPin = Level.Low ∧
      closed.lastSignalTime = gm.lastSignalTime ∧
      closed.Close Rpio.unmapped = .error Panic.segmentationViolation) ∧
    (∀ any : GPIOManager, any.Close Rpio.unmapped = .error Panic.segmentationViolation) := by
  refine ⟨⟨MockGPIOManager.SetESPResponse { mgm with shutdownClosed := true } false,
    ?_, ?_, ?_, ?_⟩, ⟨_, rfl, rfl, rfl, rfl, rfl⟩, fun _ => rfl⟩
  · simp only [MockGPIOManager.Close, hopen, Bool.false_eq_true, if_false]
  · simp only [MockGPIOManager.SetESPResponse]
    split <;> rfl
  · simp only [MockGPIOManager.SetESPResponse]
    cases h : mgm.espResponseState <;> simp [h]
  · have hc : (MockGPIOManager.SetESPResponse { mgm with shutdownClosed := true }
        false).shutdownClosed = true := by
      simp only [MockGPIOManager.SetESPResponse]
      split <;> rfl
    simp only [MockGPIOManager.Close, hc, if_true]

/-- C8, as amended, at a concrete input: the fresh mock backend and the fresh
hardware backend. -/
theorem Close_once_witness :
    (∃ closed : MockGPIOManager, freshMockGPIOManager.Close = .ok closed ∧
      closed.shutdownClosed = true ∧ closed.espResponseState = false ∧
      closed.Close = .error Panic.closeOfClosedChannel) ∧
    (∃ closed : GPIOManager, freshGPIOManager.Close Rpio.mapped = .ok (closed, Rpio.unmapped) ∧
      closed.espResponsePin = Level.Low ∧ closed.unlockRelayPin = Level.Low ∧
      closed.lastSignalTime = freshGPIOManager.lastSignalTime ∧
      closed.Close Rpio.unmapped = .error Panic.segmentationViolation) :=
  have h := Close_once freshMockGPIOManager freshGPIOManager rfl
  ⟨h.1, h.2.1⟩

/-- C8 as stated fails on both backends. After `Close()` on the fresh mock, a
second `Close()` does not complete, it panics on closing the closed channel.
After `Close()` on the fresh hardware manager (registers mapped), a second
`Close()` does not complete, it faults on the unmapped registers. -/
theorem Close_twice_fails :
    (freshMockGPIOManager.Close >>= MockGPIOManager.Close) =
      .error Panic.closeOfClosedChannel ∧
    ((GPIOInterface.mock freshMockGPIOManager).Close Rpio.unmapped >>=
        fun r => r.1.Close r.2) = .error Panic.closeOfClosedChannel ∧
    (freshGPIOManager.Close Rpio.mapped >>= fun r => r.1.Close r.2) =
      .error Panic.segmentationViolation ∧
    ((GPIOInterface.real freshGPIOManager).Close Rpio.mapped >>=
        fun r => r.1.Close r.2) = .error Panic.segmentationViolation :=
  ⟨rfl, rfl, rfl, rfl⟩

/-! ## The mock backend: injected signals -/

/-- `MockGPIOManager.IsESPSignalActive` by cases: inside the window and on an
empty queue nothing happens; otherwise the oldest signal is taken. -/
theorem MockGPIOManager.IsESPSignalActive_cases (mgm : MockGPIOManager) (now : Time)
    (hwin : mgm.debounceTime = 250 * Millisecond) :
    ((now - mgm.lastSignalTime < 250 * Millisecond ∨ mgm.signalChan.pending = []) ∧
      mgm.IsESPSignalActive now = (false, mgm)) ∨
    (250 * Millisecond ≤ now - mgm.lastSignalTime ∧
      ∃ v rest, mgm.signalChan.pending = v :: rest ∧
        mgm.IsESPSignalActive now =
          (true, { mgm with signalChan := { mgm.signalChan with pending := rest },
                            lastSignalTime := now, espSignalState := true })) := by
  unfold MockGPIOManager.IsESPSignalActive
  rw [hwin]
  by_cases h : now - mgm.lastSignalTime < 250 * Millisecond
  · left
    rw [if_pos ((Time.Sub_lt_window _ _).2 h)]
    exact ⟨Or.inl h, rfl⟩
  · rw [if_neg (fun hc => h ((Time.Sub_lt_window _ _).1 hc))]
    cases hp : mgm.signalChan.pending with
    | nil =>
      left
      simp only [Chan.tryRecv, hp]
      exact ⟨Or.inr trivial, trivial⟩
    | cons v rest =>
      right
      simp only [Chan.tryRecv, hp]
      exact ⟨not_lt.1 h, v, rest, rfl, rfl⟩

/-- A call of `MockGPIOManager.IsESPSignalActive` takes one signal from the queue
when it returns `true` and none when it returns `false`, whatever the window. -/
theorem MockGPIOManager.IsESPSignalActive_pending (mgm : MockGPIOManager) (now : Time) :
    (mgm.IsESPSignalActive now).2.signalChan.pending.length +
        (if (mgm.IsESPSignalActive now).1 then 1 else 0) =
      mgm.signalChan.pending.length := by
  unfold MockGPIOManager.IsESPSignalActive
  split
  · rfl
  · cases hp : mgm.signalChan.pending with
    | nil => simp [Chan.tryRecv, hp]
    | cons v rest => simp [Chan.tryRecv, hp]

/-- Accepted detections and pending signals after a run account for the
signals that were pending or injected. -/
theorem MockGPIOManager.run_conserves (ops : List MockOp) (mgm : MockGPIOManager) :
    (mgm.run ops).1.count true + (mgm.run ops).2.signalChan.pending.length =
      mgm.signalChan.pending.length + ops.count MockOp.inject := by
  induction ops generalizing mgm with
  | nil => simp [MockGPIOManager.run]
  | cons op ops ih =>
    cases op with
    | inject =>
      have h := ih mgm.sendSignal
      simp only [MockGPIOManager.run, List.count_cons_self]
      rw [h]
      simp only [MockGPIOManager.sendSignal, Chan.send, List.length_append, List.length_singleton]
      omega
    | tick now =>
      have h := ih (mgm.IsESPSignalActive now).2
      have hp := MockGPIOManager.IsESPSignalActive_pending mgm now
      have hne : List.count MockOp.inject (MockOp.tick now :: ops) =
          List.count MockOp.inject ops :=
        List.count_cons_of_ne (by intro hc; cases hc) _
      rw [hne]
      simp only [MockGPIOManager.run, List.count_cons]
      cases hr : (mgm.IsESPSignalActive now).1
      · rw [hr] at hp
        simp only [Bool.false_eq_true, if_false, beq_iff_eq] at hp ⊢
        omega
      · rw [hr] at hp
        simp only [if_true, beq_self_eq_true] at hp ⊢
        omega

/-- On the mock backend `handleButtonPress` is the send `signalChan <- true`; on
the hardware backend it does nothing. -/
theorem APIServer.handleButtonPress_gpio (config : Config) (mgm : MockGPIOManager)
    (gm : GPIOManager) :
    APIServer.handleButtonPress ⟨config, GPIOInterface.mock mgm⟩ =
      ⟨config, GPIOInterface.mock mgm.sendSignal⟩ ∧
    APIServer.handleButtonPress ⟨config, GPIOInterface.real gm⟩ =
      ⟨config, GPIOInterface.real gm⟩ :=
  ⟨rfl, rfl⟩

/-- The console lines `signal` and `s` are the send `signalChan <- true`. -/
theorem MockGPIOManager.readStdin_signal (mgm : MockGPIOManager) :
    mgm.readStdin "signal" = some mgm.sendSignal ∧ mgm.readStdin "s" = some mgm.sendSignal := by
  constructor <;> simp [MockGPIOManager.readStdin]

/-- C10. In the mock backend, with the 250 ms window: for every state and every
`now`, `IsESPSignalActive` returns `true` exactly when a signal is pending and
`now - lastSignalTime ≥ 250 ms`; when it returns `true` exactly the oldest
pending signal is removed, `lastSignalTime` becomes `now` (and `espSignalState`
is set); when it returns `false` the state, queue and `lastSignalTime` included,
is unchanged.  Over any sequence of injections and ticks from any state, the
number of accepted detections plus the number of signals left pending equals
the number pending at the start plus the number injected; the queue of a new
mock is empty, so there the sum equals the number of signals injected. -/
theorem mock_signals_conserved (mgm start : MockGPIOManager) (now : Time) (ops : List MockOp)
    (hwin : mgm.debounceTime = 250 * Millisecond) :
    ((mgm.IsESPSignalActive now).1 = true ↔
        mgm.signalChan.pending ≠ [] ∧ now - mgm.lastSignalTime ≥ 250 * Millisecond) ∧
    ((mgm.IsESPSignalActive now).1 = true →
        ∃ v rest, mgm.signalChan.pending = v :: rest ∧
          (mgm.IsESPSignalActive now).2 =
            { mgm with signalChan := { mgm.signalChan with pending := rest },
                       lastSignalTime := now, espSignalState := true }) ∧
    ((mgm.IsESPSignalActive now).1 = false → (mgm.IsESPSignalActive now).2 = mgm) ∧
    (start.run ops).1.count true + (start.run ops).2.signalChan.pending.length =
      start.signalChan.pending.length + ops.count MockOp.inject := by
  refine ⟨?_, ?_, ?_, MockGPIOManager.run_conserves ops start⟩
  · rcases MockGPIOManager.IsESPSignalActive_cases mgm now hwin with
      ⟨hno, h⟩ | ⟨hge, v, rest, hp, h⟩
    · rw [h]
      simp only [Bool.false_eq_true, false_iff, not_and, ge_iff_le, not_le]
      intro hne
      rcases hno with hlt | hnil
      · exact hlt
      · exact absurd hnil hne
    · rw [h]
      simp only [true_iff, ge_iff_le]
      exact ⟨by rw [hp]; exact List.cons_ne_nil _ _, hge⟩
  · intro hr
    rcases MockGPIOManager.IsESPSignalActive_cases mgm now hwin with
      ⟨_, h⟩ | ⟨_, v, rest, hp, h⟩
    · rw [h] at hr; cases hr
    · exact ⟨v, rest, hp, by rw [h]⟩
  · intro hr
    rcases MockGPIOManager.IsESPSignalActive_cases mgm now hwin with
      ⟨_, h⟩ | ⟨_, v, rest, hp, h⟩
    · rw [h]
    · rw [h] at hr; cases hr

/-- C10 at a concrete input: the fresh mock with one injected signal accepts it
at `clock2026`; and over two injections, a tick that accepts, a tick 100 ms
later that is rejected with a signal pending, and a third injection, one
detection is accepted and two signals are pending, of three injected. -/
theorem mock_signals_conserved_witness :
    (freshMockGPIOManager.sendSignal.IsESPSignalActive clock2026).1 = true ∧
    (freshMockGPIOManager.run [MockOp.inject, MockOp.inject, MockOp.tick clock2026,
        MockOp.tick (clock2026 + 100 * Millisecond), MockOp.inject]).1.count true = 1 ∧
    (freshMockGPIOManager.run [MockOp.inject, MockOp.inject, MockOp.tick clock2026,
        MockOp.tick (clock2026 + 100 * Millisecond),
        MockOp.inject]).2.signalChan.pending.length = 2 :=
  have h := mock_signals_conserved freshMockGPIOManager.sendSignal freshMockGPIOManager
    clock2026 [MockOp.inject, MockOp.inject, MockOp.tick clock2026,
      MockOp.tick (clock2026 + 100 * Millisecond), MockOp.inject] rfl
  ⟨h.1.2 ⟨by decide, by decide⟩, by decide, by decide⟩

/-! ## Two concurrent relay pulses -/

/-- A call never has more than its 500 ms hold behind it. -/
theorem RelayCall.held_le (c : RelayCall) (clock : Time) : c.held clock ≤ 500 * Millisecond := by
  cases c <;> simp only [RelayCall.held, Millisecond, Time, Duration]
  · decide
  · decide
  · split <;> omega
  · decide

/-- While `d` nanoseconds pass, the hold a call has behind it grows, by `d` at most. -/
theorem RelayCall.held_mono (c : RelayCall) (clock : Time) (d : Nat) :
    c.held clock ≤ c.held (clock + d) ∧ c.held (clock + d) ≤ c.held clock + d := by
  cases c <;> simp only [RelayCall.held, Millisecond, Time, Duration]
  · omega
  · omega
  · split <;> split <;> omega
  · omega

/-- Time passing changes nothing for a call that is not between its writes. -/
theorem RelayCall.held_of_not_mid (c : RelayCall) (clock : Time) (d : Nat)
    (h : c.midPulse = false) : c.held (clock + d) = c.held clock := by
  cases c <;> simp_all [RelayCall.held, RelayCall.midPulse]

/-- Time passing keeps the invariant. -/
theorem RelayWorld.Inv_wait (w : RelayWorld) (d : Nat) (h : w.Inv) :
    RelayWorld.Inv { w with
      clock := w.clock + d
      activeFor := if w.relay = Level.High then w.activeFor + d else w.activeFor } := by
  obtain ⟨h1, h2, h3, h4, h5, h6, h7⟩ := h
  have m1 := RelayCall.held_mono w.first w.clock d
  have m2 := RelayCall.held_mono w.second w.clock d
  have l1 := RelayCall.held_le w.first (w.clock + d)
  have l2 := RelayCall.held_le w.second (w.clock + d)
  have key : ∀ c : RelayCall, c = w.first ∨ c = w.second →
      c.held (w.clock + d) ≤ if w.relay = Level.High then w.activeFor + d else w.activeFor := by
    intro c hc
    have mc : c.held (w.clock + d) ≤ c.held w.clock + d ∧ c.held w.clock ≤ w.activeFor := by
      rcases hc with rfl | rfl
      · exact ⟨m1.2, h1⟩
      · exact ⟨m2.2, h2⟩
    have lc := RelayCall.held_le c (w.clock + d)
    by_cases hr : w.relay = Level.High
    · rw [if_pos hr]; simp only [Time, Duration] at *; omega
    · rw [if_neg hr]
      by_cases hd1 : w.first = .done
      · rw [hd1] at h1; simp only [RelayCall.held, Time, Duration] at *; omega
      · by_cases hd2 : w.second = .done
        · rw [hd2] at h2; simp only [RelayCall.held, Time, Duration] at *; omega
        · have hn1 : w.first.midPulse = false := by
            cases hm : w.first.midPulse
            · rfl
            · exact absurd (h3 hd1 hd2 (Or.inl hm)) hr
          have hn2 : w.second.midPulse = false := by
            cases hm : w.second.midPulse
            · rfl
            · exact absurd (h3 hd1 hd2 (Or.inr hm)) hr
          rcases hc with rfl | rfl
          · rw [RelayCall.held_of_not_mid _ _ _ hn1]; exact h1
          · rw [RelayCall.held_of_not_mid _ _ _ hn2]; exact h2
  refine ⟨key _ (Or.inl rfl), key _ (Or.inr rfl), h3, h4, h5, h6, ?_⟩
  intro ho
  have h7 := h7 ho
  show w.first.held (w.clock + d) + w.second.held (w.clock + d) ≤
    if w.relay = Level.High then w.activeFor + d else w.activeFor
  cases hm1 : w.first.midPulse <;> cases hm2 : w.second.midPulse
  · rw [RelayCall.held_of_not_mid _ _ _ hm1, RelayCall.held_of_not_mid _ _ _ hm2]
    split <;> simp only [Time, Duration] at * <;> omega
  · rw [RelayCall.held_of_not_mid _ _ _ hm1, if_pos (h6 ho (Or.inr hm2))]
    simp only [Time, Duration] at *; omega
  · rw [RelayCall.held_of_not_mid _ _ _ hm2, if_pos (h6 ho (Or.inl hm1))]
    simp only [Time, Duration] at *; omega
  · exact absurd ⟨hm1, hm2⟩ (h5 ho)

/-- A statement of the first call keeps the invariant. -/
theorem RelayWorld.Inv_step_first (w w1 : RelayWorld) (h : w.Inv)
    (he : w.exec (Action.step Caller.first) = some w1) : w1.Inv := by
  obtain ⟨h1, h2, h3, h4, h5, h6, h7⟩ := h
  unfold RelayWorld.exec at he
  cases hc : w.first with
  | start =>
    simp only [hc, RelayCall.next, Option.some.injEq] at he
    subst he
    refine ⟨?_, ?_, ?_, ?_, ?_, ?_, ?_⟩
    · simpa only [hc, RelayCall.held] using h1
    · exact h2
    · intro _ _ _; rfl
    · intro hd; cases hd
    · intro ho hm
      simp only [Bool.or_eq_false_iff, decide_True, Bool.true_and] at ho
      rw [ho.2] at hm
      exact Bool.noConfusion hm.2
    · intro _ _; rfl
    · intro ho
      simp only [Bool.or_eq_false_iff] at ho
      simpa only [hc, RelayCall.held] using h7 ho.1
  | high =>
    simp only [hc, RelayCall.next, Option.some.injEq] at he
    subst he
    have hz : (RelayCall.sleeping (w.clock + 500 * Millisecond)).held w.clock = 0 := by
      simp only [RelayCall.held, Millisecond, Time, Duration]
      split <;> omega
    refine ⟨?_, ?_, ?_, ?_, ?_, ?_, ?_⟩
    · show (RelayCall.sleeping (w.clock + 500 * Millisecond)).held w.clock ≤ w.activeFor
      rw [hz]
      simpa only [hc, RelayCall.held] using h1
    · exact h2
    · intro _ hd _
      exact h3 (by rw [hc]; exact fun h => RelayCall.noConfusion h) hd (Or.inl (by rw [hc]; rfl))
    · intro hd; cases hd
    · intro ho hm
      exact h5 ho ⟨by rw [hc]; rfl, hm.2⟩
    · intro ho _
      exact h6 ho (Or.inl (by rw [hc]; rfl))
    · intro ho
      show (RelayCall.sleeping (w.clock + 500 * Millisecond)).held w.clock + w.second.held w.clock ≤ w.activeFor
      rw [hz]
      simpa only [hc, RelayCall.held] using h7 ho
  | sleeping wake =>
    by_cases hw : wake ≤ w.clock
    · simp only [hc, RelayCall.next, hw, if_true, Option.some.injEq] at he
      subst he
      have hfull : (RelayCall.sleeping wake).held w.clock = 500 * Millisecond := by
        simp only [RelayCall.held, hw, if_true]
      refine ⟨?_, ?_, ?_, ?_, ?_, ?_, ?_⟩
      · show RelayCall.done.held w.clock ≤ w.activeFor
        rw [hc, hfull] at h1
        exact h1
      · exact h2
      · intro hd1 _ _
        exact absurd rfl hd1
      · intro _ _; rfl
      · intro _ hm
        exact Bool.noConfusion hm.1
      · intro ho hm
        simp only [Bool.or_eq_false_iff] at ho
        rcases hm with hm | hm
        · exact Bool.noConfusion hm
        · exact absurd ⟨by rw [hc]; rfl, hm⟩ (h5 ho.1)
      · intro ho
        simp only [Bool.or_eq_false_iff] at ho
        have := h7 ho.1
        rw [hc, hfull] at this
        exact this
    · simp only [hc, RelayCall.next, hw, if_false] at he
      cases he
  | done =>
    simp only [hc, RelayCall.next] at he
    cases he

/-- A statement of the second call keeps the invariant. -/
theorem RelayWorld.Inv_step_second (w w1 : RelayWorld) (h : w.Inv)
    (he : w.exec (Action.step Caller.second) = some w1) : w1.Inv := by
  obtain ⟨h1, h2, h3, h4, h5, h6, h7⟩ := h
  unfold RelayWorld.exec at he
  cases hc : w.second with
  | start =>
    simp only [hc, RelayCall.next, Option.some.injEq] at he
    subst he
    refine ⟨h1, ?_, ?_, ?_, ?_, ?_, ?_⟩
    · simpa only [hc, RelayCall.held] using h2
    · intro _ _ _; rfl
    · intro _ hd; cases hd
    · intro ho hm
      simp only [Bool.or_eq_false_iff, decide_True, Bool.true_and] at ho
      rw [ho.2] at hm
      exact Bool.noConfusion hm.1
    · intro _ _; rfl
    · intro ho
      simp only [Bool.or_eq_false_iff] at ho
      simpa only [hc, RelayCall.held] using h7 ho.1
  | high =>
    simp only [hc, RelayCall.next, Option.some.injEq] at he
    subst he
    have hz : (RelayCall.sleeping (w.clock + 500 * Millisecond)).held w.clock = 0 := by
      simp only [RelayCall.held, Millisecond, Time, Duration]
      split <;> omega
    refine ⟨h1, ?_, ?_, ?_, ?_, ?_, ?_⟩
    · show (RelayCall.sleeping (w.clock + 500 * Millisecond)).held w.clock ≤ w.activeFor
      rw [hz]
      simpa only [hc, RelayCall.held] using h2
    · intro hd _ _
      exact h3 hd (by rw [hc]; exact fun h => RelayCall.noConfusion h) (Or.inr (by rw [hc]; rfl))
    · intro _ hd; cases hd
    · intro ho hm
      exact h5 ho ⟨hm.1, by rw [hc]; rfl⟩
    · intro ho _
      exact h6 ho (Or.inr (by rw [hc]; rfl))
    · intro ho
      show w.first.held w.clock + (RelayCall.sleeping (w.clock + 500 * Millisecond)).held w.clock
        ≤ w.activeFor
      rw [hz]
      simpa only [hc, RelayCall.held] using h7 ho
  | sleeping wake =>
    by_cases hw : wake ≤ w.clock
    · simp only [hc, RelayCall.next, hw, if_true, Option.some.injEq] at he
      subst he
      have hfull : (RelayCall.sleeping wake).held w.clock = 500 * Millisecond := by
        simp only [RelayCall.held, hw, if_true]
      refine ⟨h1, ?_, ?_, ?_, ?_, ?_, ?_⟩
      · show RelayCall.done.held w.clock ≤ w.activeFor
        rw [hc, hfull] at h2
        exact h2
      · intro _ hd2 _
        exact absurd rfl hd2
      · intro _ _; rfl
      · intro _ hm
        exact Bool.noConfusion hm.2
      · intro ho hm
        simp only [Bool.or_eq_false_iff] at ho
        rcases hm with hm | hm
        · exact absurd ⟨hm, by rw [hc]; rfl⟩ (h5 ho.1)
        · exact Bool.noConfusion hm
      · intro ho
        simp only [Bool.or_eq_false_iff] at ho
        have := h7 ho.1
        rw [hc, hfull] at this
        exact this
    · simp only [hc, RelayCall.next, hw, if_false] at he
      cases he
  | done =>
    simp only [hc, RelayCall.next] at he
    cases he

/-- Every action keeps the invariant. -/
theorem RelayWorld.Inv_exec (w w1 : RelayWorld) (a : Action) (h : w.Inv)
    (he : w.exec a = some w1) : w1.Inv := by
  cases a with
  | step c =>
    cases c with
    | first => exact RelayWorld.Inv_step_first w w1 h he
    | second => exact RelayWorld.Inv_step_second w w1 h he
  | wait d =>
    simp only [RelayWorld.exec, Option.some.injEq] at he
    subst he
    exact RelayWorld.Inv_wait w d h

/-- Every schedule keeps the invariant. -/
theorem RelayWorld.Inv_run (as : List Action) (w w1 : RelayWorld) (h : w.Inv)
    (hr : w.run as = some w1) : w1.Inv := by
  induction as generalizing w with
  | nil =>
    simp only [RelayWorld.run, Option.some.injEq] at hr
    subst hr
    exact h
  | cons a as ih =>
    simp only [RelayWorld.run] at hr
    cases he : w.exec a with
    | none => rw [he] at hr; cases hr
    | some w2 =>
      rw [he] at hr
      exact ih w2 (RelayWorld.Inv_exec w w2 a h he) hr

/-- The invariant holds before the calls start. -/
theorem RelayWorld.Inv_init (t0 : Time) : (RelayWorld.init t0).Inv := by
  refine ⟨?_, ?_, ?_, ?_, ?_, ?_, ?_⟩
  · exact le_refl _
  · exact le_refl _
  · intro _ _ h; rcases h with h | h <;> cases h
  · intro h; cases h
  · intro _ h; cases h.1
  · intro _ h; rcases h with h | h <;> cases h
  · intro _; show (0 : Int) + 0 ≤ 0; decide

/-- One call of `TriggerUnlockRelay` scheduled alone goes through the statements
of the sequential `TriggerUnlockRelay`: a write of `High`, a sleep that ends
500 ms later, a write of `Low`. -/
theorem RelayWorld.single_call :
    (GPIOManager.TriggerUnlockRelay freshGPIOManager).2 =
      [Event.relayWrite Level.High, Event.sleep (500 * Millisecond),
       Event.relayWrite Level.Low] ∧
    ((RelayWorld.init clock2026).run
        [Action.step Caller.first, Action.step Caller.first, Action.wait 500000000,
         Action.step Caller.first]).map
        (fun w => (w.writes, w.activeFor, w.first)) =
      some ([(Caller.first, Level.High), (Caller.first, Level.Low)], 500 * Millisecond,
        RelayCall.done) ∧
    (RelayWorld.init clock2026).run
        [Action.step Caller.first, Action.step Caller.first, Action.wait 499999999,
         Action.step Caller.first] = none := by
  refine ⟨rfl, ?_, ?_⟩ <;> decide

/-- C9, as amended. Nothing serializes two concurrent calls of
`TriggerUnlockRelay`: each writes the relay line `High`, sleeps 500 ms and writes
it `Low`, and their statements interleave freely.  For every schedule that runs
both calls to completion from a `Low` relay line: the line ends `Low` and has
been `High` for at least 500 ms in total; and when no call wrote `High` while the
other was between its two writes (the second pulse starts only after the first
has ended), it has been `High` for at least 2 × 500 ms. -/
theorem two_relay_calls (t0 : Time) (schedule : List Action) (w : RelayWorld)
    (hrun : (RelayWorld.init t0).run schedule = some w)
    (hfirst : w.first = RelayCall.done) (hsecond : w.second = RelayCall.done) :
    w.relay = Level.Low ∧ 500 * Millisecond ≤ w.activeFor ∧
    (w.overlapped = false → 2 * (500 * Millisecond) ≤ w.activeFor) := by
  obtain ⟨h1, _, _, h4, _, _, h7⟩ :=
    RelayWorld.Inv_run schedule _ w (RelayWorld.Inv_init t0) hrun
  refine ⟨h4 hfirst hsecond, ?_, ?_⟩
  · rw [hfirst] at h1
    exact h1
  · intro ho
    have := h7 ho
    rw [hfirst, hsecond] at this
    simp only [RelayCall.held, Millisecond, Time, Duration] at *
    omega

/-- C9, as amended, at a concrete input: the first call runs to its end, then
the second; the only time that passes is the two sleeps.  The writes are
`High`, `Low`, `High`, `Low` and the relay line has been `High` for 2 × 500 ms. -/
theorem two_relay_calls_witness :
    (RelayWorld.init clock2026).run serialSchedule =
      some { clock := clock2026 + 1000 * Millisecond
             relay := Level.Low
             activeFor := 1000 * Millisecond
             first := RelayCall.done
             second := RelayCall.done
             overlapped := false
             writes := [(Caller.first, Level.High), (Caller.first, Level.Low),
                        (Caller.second, Level.High), (Caller.second, Level.Low)] } ∧
    2 * (500 * Millisecond) ≤ (1000 * Millisecond : Duration) :=
  have hrun : (RelayWorld.init clock2026).run serialSchedule =
      some { clock := clock2026 + 1000 * Millisecond
             relay := Level.Low
             activeFor := 1000 * Millisecond
             first := RelayCall.done
             second := RelayCall.done
             overlapped := false
             writes := [(Caller.first, Level.High), (Caller.first, Level.Low),
                        (Caller.second, Level.High), (Caller.second, Level.Low)] } := by
    decide
  ⟨hrun, (two_relay_calls clock2026 serialSchedule _ hrun rfl rfl).2.2 rfl⟩

/-- C9 as stated fails. In the schedule where both calls write `High`, both
enter their sleep, 500 ms pass and both write `Low`, the second call's
set-Active step comes before the first call's set-Inactive step, both calls
complete, and the relay line has been `High` for 500 ms, not 2 × 500 ms. -/
theorem relay_calls_overlap :
    (RelayWorld.init clock2026).run overlappingSchedule =
      some { clock := clock2026 + 500 * Millisecond
             relay := Level.Low
             activeFor := 500 * Millisecond
             first := RelayCall.done
             second := RelayCall.done
             overlapped := true
             writes := [(Caller.first, Level.High), (Caller.second, Level.High),
                        (Caller.first, Level.Low), (Caller.second, Level.Low)] } ∧
    (500 * Millisecond : Duration) ≠ 2 * (500 * Millisecond) := by
  constructor <;> decide

end GateLocker
